import Mathlib

/-! Verification of the chat-completions client.

A shallow embedding of the validation and request/response translation
pipeline (`internal/provider`, `internal/strategy`, `internal/types`), of the
request builder of `internal/transport` and of the helper of
`internal/runtime`, and the properties proved about them.

Conventions of the embedding:

* a Go `string` is a `String`, a Go `int` is an `Int` (no arithmetic is
  performed on integers anywhere in the pipeline, only copying and `%d`
  formatting);
* a Go `error` is a `GoError`: `none` is `nil`, `some text` is an error whose
  `Error()` is `text`;
* a Go `map[string]V` is a `GoMap V`: its entries in the order in which a
  `range` loop visits them; a map value has pairwise distinct keys
  (`GoMap.WF`);
* a Go `any` is an `Any`;
* a call that panics is `Outcome.panic`, a call that returns is `Outcome.ret`.
-/

namespace AgenticAI

/-! ## Go values -/

/-- A Go `error` value: `none` is `nil`, `some text` has `Error() = text`. -/
abbrev GoError := Option String

/-- A Go `map[string]V`, as the sequence of entries a `range` loop visits. -/
abbrev GoMap (V : Type) := List (String × V)

namespace GoMap

/-- The keys of the map, in iteration order. -/
def keys {V : Type} (m : GoMap V) : List String :=
  m.map Prod.fst

/-- Well-formed map value: no key occurs twice. -/
def WF {V : Type} (m : GoMap V) : Prop :=
  (keys m).Nodup

/-- The comma-ok lookup `v, ok := m[k]`. -/
def get? {V : Type} : GoMap V → String → Option V
  | [], _ => none
  | (k', v) :: rest, k => if k' = k then some v else get? rest k

/-- The plain lookup `m[k]`, which yields the zero value `zero` when `k` is absent. -/
def getD {V : Type} (m : GoMap V) (k : String) (zero : V) : V :=
  (get? m k).getD zero

/-- The assignment `m[k] = v`: overwrite the entry of `k` or add one. -/
def set {V : Type} : GoMap V → String → V → GoMap V
  | [], k, v => [(k, v)]
  | (k', v') :: rest, k, v =>
    if k' = k then (k, v) :: rest else (k', v') :: set rest k v

instance WF.decidable {V : Type} (m : GoMap V) : Decidable (WF m) :=
  inferInstanceAs (Decidable (keys m).Nodup)

end GoMap

/-- A Go `any` value as it occurs in request parameters and request bodies. -/
inductive Any where
  | null
  | bool (b : Bool)
  | int (n : Int)
  | float64 (bits : Nat)
  | str (s : String)
  | stringMaps (ms : List (GoMap String))
  deriving DecidableEq, Repr

/-- The value a `panic` carries: a string (`panic(err.Error())`) or an error (`panic(err)`). -/
inductive PanicValue where
  | str (s : String)
  | err (text : String)
  deriving DecidableEq, Repr

/-- How a call ends: it panics with a value or returns one. -/
inductive Outcome (α : Type) where
  | panic (value : PanicValue)
  | ret (a : α)
  deriving DecidableEq, Repr

/-- The verb `%v` of `fmt` applied to a `[]string`. -/
def fmtStringSlice (xs : List String) : String :=
  "[" ++ " ".intercalate xs ++ "]"

/-- The verb `%d` of `fmt` applied to an `int`. -/
def fmtInt (n : Int) : String :=
  toString n

/-! ## internal/types/types.go -/

structure TokenUsage where
  promptTokens : Int
  completionTokens : Int
  totalTokens : Int
  deriving DecidableEq, Repr

structure GenerateTextResult where
  textContent : String
  tokenUsage : TokenUsage
  deriving DecidableEq, Repr

def GenerateTextResult.TextContent (r : GenerateTextResult) : String :=
  r.textContent

def GenerateTextResult.Usage (r : GenerateTextResult) : TokenUsage :=
  r.tokenUsage

def TokenUsage.PromptTokens (t : TokenUsage) : Int :=
  t.promptTokens

def TokenUsage.CompletionTokens (t : TokenUsage) : Int :=
  t.completionTokens

def TokenUsage.TotalTokens (t : TokenUsage) : Int :=
  t.totalTokens

def NewGenerateTextResult (textContent : String) (tokenUsage : TokenUsage) : GenerateTextResult :=
  { textContent := textContent, tokenUsage := tokenUsage }

def NewTokenUsage (promptTokens completionTokens totalTokens : Int) : TokenUsage :=
  { promptTokens := promptTokens, completionTokens := completionTokens, totalTokens := totalTokens }

/-- The zero value `types.GenerateTextResult{}`. -/
def GenerateTextResult.zero : GenerateTextResult :=
  { textContent := "", tokenUsage := { promptTokens := 0, completionTokens := 0, totalTokens := 0 } }

/-! ## internal/provider/interfaces.go, validation.go -/

/-- A value of the interface `Model`, given by what its two methods return. -/
structure Model where
  name : String
  parameters : List String
  deriving DecidableEq, Repr

def Model.Name (m : Model) : String :=
  m.name

def Model.AvailableRequestParameters (m : Model) : List String :=
  m.parameters

def ValidateModel (availableModels : List Model) (modelName : String) (providerName : String) : GoError :=
  match availableModels with
  | [] => some ("model " ++ modelName ++ " is not available in provider " ++ providerName)
  | m :: rest =>
    if m.Name = modelName then none
    else ValidateModel rest modelName providerName

/-- The second loop of `ValidateRequestParameters`: the first visited key that
`availableParamsMap` does not map to `true` ends the call with an error. -/
def ValidateRequestParameters.check (availableParamsMap : GoMap Bool) (availableParams : List String)
    (modelName : String) : GoMap Any → GoError
  | [] => none
  | (key, _) :: rest =>
    if !(GoMap.getD availableParamsMap key false) then
      some ("request parameter '" ++ key ++ "' is not available for model " ++ modelName
        ++ ". Available parameters: " ++ fmtStringSlice availableParams)
    else ValidateRequestParameters.check availableParamsMap availableParams modelName rest

def ValidateRequestParameters (availableParams : List String) (requestParameters : GoMap Any)
    (modelName : String) : GoError :=
  let availableParamsMap : GoMap Bool :=
    availableParams.foldl (fun acc param => GoMap.set acc param true) []
  ValidateRequestParameters.check availableParamsMap availableParams modelName requestParameters

/-! ## internal/strategy/chatcompletions.go -/

structure ChatMessage where
  Role : String
  Content : String
  deriving DecidableEq, Repr

structure ChatCompletionsRequest where
  Model : String
  Messages : List ChatMessage
  RequestParams : GoMap Any
  deriving DecidableEq, Repr

structure ChoiceMessage where
  Content : String
  deriving DecidableEq, Repr

structure Choice where
  Message : ChoiceMessage
  deriving DecidableEq, Repr

structure ResponseUsage where
  PromptTokens : Int
  CompletionTokens : Int
  TotalTokens : Int
  deriving DecidableEq, Repr

structure ResponseError where
  Message : String
  Type_ : String
  Code : String
  deriving DecidableEq, Repr

structure ChatCompletionsResponse where
  Choices : List Choice
  Usage : ResponseUsage
  Error : ResponseError
  deriving DecidableEq, Repr

/-- The zero value `ChatCompletionsResponse{}`. -/
def ChatCompletionsResponse.zero : ChatCompletionsResponse :=
  { Choices := [],
    Usage := { PromptTokens := 0, CompletionTokens := 0, TotalTokens := 0 },
    Error := { Message := "", Type_ := "", Code := "" } }

/-- The handle `*http.Client`, given by its timeout in nanoseconds. -/
structure HTTPClient where
  Timeout : Int
  deriving DecidableEq, Repr

structure ChatCompletionsConfig where
  BaseURL : String
  Endpoint : String
  APIKey : String
  HTTPClient : HTTPClient
  deriving DecidableEq, Repr

def BuildChatCompletionsRequestBody (req : ChatCompletionsRequest) : GoMap Any :=
  let messages : List (GoMap String) :=
    req.Messages.map (fun msg => [("role", msg.Role), ("content", msg.Content)])
  let requestBody : GoMap Any :=
    [("model", Any.str req.Model), ("messages", Any.stringMaps messages)]
  req.RequestParams.foldl (fun body kv => GoMap.set body kv.1 kv.2) requestBody

/-- The constant `http.StatusOK`. -/
def StatusOK : Int := 200

def ParseChatCompletionsResponse (response : ChatCompletionsResponse) (statusCode : Int) :
    GenerateTextResult × GoError :=
  if statusCode ≠ StatusOK then
    if response.Error.Message ≠ "" then
      (GenerateTextResult.zero,
        some ("API error (status " ++ fmtInt statusCode ++ "): " ++ response.Error.Message
          ++ " (type: " ++ response.Error.Type_ ++ ", code: " ++ response.Error.Code ++ ")"))
    else
      (GenerateTextResult.zero, some ("API request failed with status " ++ fmtInt statusCode))
  else if response.Error.Message ≠ "" then
    (GenerateTextResult.zero,
      some ("API error: " ++ response.Error.Message ++ " (type: " ++ response.Error.Type_ ++ ")"))
  else
    match response.Choices with
    | [] => (GenerateTextResult.zero, some "no choices in API response")
    | first :: _ =>
      let usage := NewTokenUsage response.Usage.PromptTokens response.Usage.CompletionTokens
        response.Usage.TotalTokens
      let result := NewGenerateTextResult first.Message.Content usage
      (result, none)

/-! ## internal/config/config.go -/

structure OpenAIConfig where
  APIKey : String
  BaseURL : String
  deriving DecidableEq, Repr

structure Config where
  OpenAI : OpenAIConfig
  deriving DecidableEq, Repr

/-! ## internal/transport/client.go -/

/-- The constant `DefaultTimeout = 60 * time.Second`, in nanoseconds. -/
def DefaultTimeout : Int := 60 * 1000000000

def NewClient (timeout : Int) : HTTPClient :=
  if timeout = 0 then { Timeout := DefaultTimeout } else { Timeout := timeout }

/-! ## internal/provider/openai.go -/

structure OpenAIChatCompletionsProvider where
  config : GoMap Any
  availableModels : List Model
  modelParameters : GoMap (List String)
  name : String
  apiKey : String
  baseURL : String
  httpClient : HTTPClient
  deriving DecidableEq, Repr

/-- The constructor. Reading and parsing the configuration file is the
environment's part: `LoadConfig` says how `config.LoadConfig` ends for a file
name (it panics when the file cannot be read or parsed). -/
def NewOpenAIChatCompletionsProvider (LoadConfig : String → Outcome Config) (configFile : String) :
    Outcome OpenAIChatCompletionsProvider :=
  match LoadConfig configFile with
  | Outcome.panic value => Outcome.panic value
  | Outcome.ret cfg =>
    if cfg.OpenAI.APIKey = "" then
      Outcome.panic (PanicValue.str "openai.api_key is required in config file")
    else
      let baseURL := if cfg.OpenAI.BaseURL = "" then "https://api.openai.com/v1" else cfg.OpenAI.BaseURL
      Outcome.ret
        { name := "OpenAI Chat Completions",
          apiKey := cfg.OpenAI.APIKey,
          baseURL := baseURL,
          httpClient := NewClient DefaultTimeout,
          availableModels :=
            [ { name := "gpt-4.1", parameters := ["temperature", "top_p"] },
              { name := "gpt-5", parameters := [] } ],
          modelParameters := [("gpt-4.1", ["temperature", "top_p"]), ("gpt-5", [])],
          config := [("api_key", Any.str cfg.OpenAI.APIKey), ("base_url", Any.str baseURL)] }

def OpenAIChatCompletionsProvider.Name (p : OpenAIChatCompletionsProvider) : String :=
  p.name

def OpenAIChatCompletionsProvider.AvailableModels (p : OpenAIChatCompletionsProvider) : List Model :=
  p.availableModels

def OpenAIChatCompletionsProvider.AvailableRequestParameters (p : OpenAIChatCompletionsProvider)
    (modelName : String) : List String :=
  match GoMap.get? p.modelParameters modelName with
  | some params => params
  | none => []

def OpenAIChatCompletionsProvider.Config (p : OpenAIChatCompletionsProvider) : GoMap Any :=
  p.config

/-- The HTTP exchange of `strategy.ExecuteChatCompletionsRequest`, which lies
outside the embedding: for a configuration and a request body, the decoded
response, the status code and the error that the call returns. -/
abbrev Exchange := ChatCompletionsConfig → GoMap Any → ChatCompletionsResponse × Int × GoError

/-- A run of an operation that may call `strategy.ExecuteChatCompletionsRequest`:
the calls it made (configuration and request body, in order) and how it ended. -/
structure Run (α : Type) where
  requests : List (ChatCompletionsConfig × GoMap Any)
  outcome : Outcome α

def OpenAIChatCompletionsProvider.GenerateText (p : OpenAIChatCompletionsProvider) (exchange : Exchange)
    (prompt : String) (modelName : String) (requestParameters : GoMap Any) :
    Run (GenerateTextResult × GoError) :=
  match ValidateModel p.availableModels modelName p.Name with
  | some err => { requests := [], outcome := Outcome.panic (PanicValue.str err) }
  | none =>
    let availableParams := p.AvailableRequestParameters modelName
    match ValidateRequestParameters availableParams requestParameters modelName with
    | some err => { requests := [], outcome := Outcome.panic (PanicValue.str err) }
    | none =>
      let chatRequest : ChatCompletionsRequest :=
        { Model := modelName,
          Messages := [{ Role := "user", Content := prompt }],
          RequestParams := requestParameters }
      let requestBody := BuildChatCompletionsRequestBody chatRequest
      let cfg : ChatCompletionsConfig :=
        { BaseURL := p.baseURL,
          Endpoint := "/chat/completions",
          APIKey := p.apiKey,
          HTTPClient := p.httpClient }
      match exchange cfg requestBody with
      | (_, _, some err) =>
        { requests := [(cfg, requestBody)], outcome := Outcome.ret (GenerateTextResult.zero, some err) }
      | (response, statusCode, none) =>
        { requests := [(cfg, requestBody)],
          outcome := Outcome.ret (ParseChatCompletionsResponse response statusCode) }

/-- The loop of `GetModel` over the models not yet visited. -/
def OpenAIChatCompletionsProvider.GetModel.search (p : OpenAIChatCompletionsProvider)
    (modelName : String) : List Model → Option Model × GoError
  | [] => (none, some ("model " ++ modelName ++ " not found in provider " ++ p.Name))
  | model :: rest =>
    if model.Name = modelName then (some model, none)
    else OpenAIChatCompletionsProvider.GetModel.search p modelName rest

def OpenAIChatCompletionsProvider.GetModel (p : OpenAIChatCompletionsProvider)
    (modelName : String) : Option Model × GoError :=
  OpenAIChatCompletionsProvider.GetModel.search p modelName p.availableModels

/-! ## internal/runtime/runtime.go -/

/-- A value of the interface `Provider` as `runtime.GenerateText` uses it: its
method `GenerateText`, which may panic, and which may read and change the
state `σ` of the provider and of the world behind it. -/
structure Provider (σ : Type) where
  GenerateText : String → String → GoMap Any → σ → Outcome (GenerateTextResult × GoError) × σ

def runtime.GenerateText {σ : Type} (p : Provider σ) (prompt : String) (modelName : String)
    (requestParameters : GoMap Any) (s : σ) : Outcome GenerateTextResult × σ :=
  match p.GenerateText prompt modelName requestParameters s with
  | (Outcome.panic value, s1) => (Outcome.panic value, s1)
  | (Outcome.ret (_, some err), s1) => (Outcome.panic (PanicValue.err err), s1)
  | (Outcome.ret (response, none), s1) => (Outcome.ret response, s1)

/-- The `mockProvider` of `runtime_test.go`. -/
structure mockProvider where
  shouldError : Bool
  deriving DecidableEq, Repr

def mockProvider.GenerateText (m : mockProvider) (_prompt : String) (_modelName : String)
    (_requestParameters : GoMap Any) : GenerateTextResult × GoError :=
  if m.shouldError then (GenerateTextResult.zero, some "mock provider error")
  else (NewGenerateTextResult "Mock response" (NewTokenUsage 10 20 30), none)

/-- The mock as a `Provider` whose state is the list of the calls it received. -/
def mockProvider.asProvider (m : mockProvider) : Provider (List (String × String × GoMap Any)) :=
  { GenerateText := fun prompt modelName requestParameters calls =>
      (Outcome.ret (m.GenerateText prompt modelName requestParameters),
        calls ++ [(prompt, modelName, requestParameters)]) }

/-! ## net/http headers, as used by internal/transport/client.go -/

/-- The function `validHeaderFieldByte` of `net/textproto`: letters, digits and
the other token characters of RFC 7230 (given by their codes). -/
def validHeaderFieldByte (c : Char) : Bool :=
  c.isAlphanum ||
    [0x21, 0x23, 0x24, 0x25, 0x26, 0x27, 0x2A, 0x2B, 0x2D, 0x2E, 0x5E, 0x5F, 0x60, 0x7C, 0x7E].contains
      c.toNat

/-- The rewriting loop of `canonicalMIMEHeaderKey`: upper case for the first
letter and for a letter after a dash, lower case for every other letter. -/
def canonicalMIMEHeaderKey : Bool → List Char → List Char
  | _, [] => []
  | upper, c :: rest =>
    let c1 : Char :=
      if upper && c.isLower then Char.ofNat (c.toNat - 32)
      else if !upper && c.isUpper then Char.ofNat (c.toNat + 32)
      else c
    c1 :: canonicalMIMEHeaderKey (c1 == '-') rest

/-- The function `textproto.CanonicalMIMEHeaderKey`, which `http.Header.Set` and
`http.Header.Get` apply to the key: a key with a character that is not a valid
header field byte is left as it is, every other key is put in canonical
form. -/
def CanonicalMIMEHeaderKey (s : String) : String :=
  if s.toList.all validHeaderFieldByte then String.mk (canonicalMIMEHeaderKey true s.toList) else s

/-- The type `http.Header`, a `map[string][]string`. -/
abbrev Header := GoMap (List String)

/-- The method `http.Header.Set`. -/
def Header.Set (h : Header) (key value : String) : Header :=
  GoMap.set h (CanonicalMIMEHeaderKey key) [value]

/-- The method `http.Header.Get`: the first value of the key, "" when there is none. -/
def Header.Get (h : Header) (key : String) : String :=
  match GoMap.get? h (CanonicalMIMEHeaderKey key) with
  | some (v :: _) => v
  | _ => ""

/-- The fields of `*http.Request` that `CreateJSONRequest` determines: `URL` is
the string form of the parsed URL (`req.URL.String()`). -/
structure Request where
  Method : String
  URL : String
  Body : List Nat
  Header : Header
  deriving DecidableEq, Repr

/-- The function `CreateJSONRequest`. Two library calls are the environment's
part: `jsonMarshal` is `json.Marshal` on the body (bytes and error), and
`newRequest` is `http.NewRequestWithContext` for a method and a URL: the string
form of the URL it parsed and its error (nil when it accepts them; the new
request has no header). A nil `body` is `none`, a nil `headers` map is the
empty map. -/
def CreateJSONRequest {β : Type} (jsonMarshal : β → List Nat × GoError)
    (newRequest : String → String → String × GoError)
    (method url : String) (body : Option β) (headers : GoMap String) : Option Request × GoError :=
  let marshalled : List Nat × GoError :=
    match body with
    | none => ([], none)
    | some b => jsonMarshal b
  match marshalled.2 with
  | some err => (none, some ("failed to marshal request body: " ++ err))
  | none =>
    match (newRequest method url).2 with
    | some err => (none, some ("failed to create request: " ++ err))
    | none =>
      let req : Request :=
        { Method := if method = "" then "GET" else method, URL := (newRequest method url).1,
          Body := marshalled.1, Header := [] }
      let h1 : Header :=
        if body.isSome then Header.Set req.Header "Content-Type" "application/json" else req.Header
      let h2 : Header := Header.Set h1 "Accept" "application/json"
      let h3 : Header := headers.foldl (fun h kv => Header.Set h kv.1 kv.2) h2
      (some { req with Header := h3 }, none)

/-! ## Fixtures of the test suite -/

/-- The response of the test "successful parsing". -/
def fixtureSuccess : ChatCompletionsResponse :=
  { Choices := [{ Message := { Content := "Hello world" } }],
    Usage := { PromptTokens := 10, CompletionTokens := 20, TotalTokens := 30 },
    Error := { Message := "", Type_ := "", Code := "" } }

/-- The response of the test "API error". -/
def fixtureAPIError : ChatCompletionsResponse :=
  { Choices := [],
    Usage := { PromptTokens := 0, CompletionTokens := 0, TotalTokens := 0 },
    Error := { Message := "Invalid API key", Type_ := "authentication_error", Code := "invalid_api_key" } }

/-- A response that carries both an error message and a usable choice. -/
def fixtureErrorWithChoice : ChatCompletionsResponse :=
  { Choices := [{ Message := { Content := "Hello world" } }],
    Usage := { PromptTokens := 10, CompletionTokens := 20, TotalTokens := 30 },
    Error := { Message := "Rate limited", Type_ := "rate_limit_error", Code := "rate_limited" } }

/-- A response without choices whose usage counts are not zero. -/
def fixtureNoChoices : ChatCompletionsResponse :=
  { Choices := [],
    Usage := { PromptTokens := 10, CompletionTokens := 0, TotalTokens := 10 },
    Error := { Message := "", Type_ := "", Code := "" } }

/-- The number 0.7 as a `float64` (its IEEE 754 bits). -/
def float0_7 : Any := Any.float64 0x3FE6666666666666

/-- The number 0.9 as a `float64` (its IEEE 754 bits). -/
def float0_9 : Any := Any.float64 0x3FECCCCCCCCCCCCD

/-- The request of `TestBuildChatCompletionsRequestBody`. -/
def fixtureRequest : ChatCompletionsRequest :=
  { Model := "gpt-4",
    Messages :=
      [ { Role := "system", Content := "You are a helpful assistant" },
        { Role := "user", Content := "Hello" } ],
    RequestParams := [("temperature", float0_7), ("max_tokens", Any.int 100)] }

/-- The configuration file written by the provider tests, once loaded. -/
def fixtureLoadConfig : String → Outcome Config :=
  fun _ => Outcome.ret { OpenAI := { APIKey := "test-key", BaseURL := "https://api.openai.com/v1" } }

/-- The provider that the constructor builds from `fixtureLoadConfig`. -/
def fixtureProvider : OpenAIChatCompletionsProvider :=
  { name := "OpenAI Chat Completions",
    apiKey := "test-key",
    baseURL := "https://api.openai.com/v1",
    httpClient := { Timeout := 60000000000 },
    availableModels :=
      [ { name := "gpt-4.1", parameters := ["temperature", "top_p"] },
        { name := "gpt-5", parameters := [] } ],
    modelParameters := [("gpt-4.1", ["temperature", "top_p"]), ("gpt-5", [])],
    config := [("api_key", Any.str "test-key"), ("base_url", Any.str "https://api.openai.com/v1")] }

/-- An exchange that answers every request with status 200 and `fixtureSuccess`. -/
def fixtureExchange : Exchange :=
  fun _ _ => (fixtureSuccess, 200, none)

/-- The parameters of the provider tests that `gpt-4.1` accepts. -/
def fixtureParameters : GoMap Any :=
  [("temperature", float0_7), ("top_p", float0_9)]

/-- The parameters of the test "gpt-5 rejects any parameter". -/
def fixtureTemperatureOnly : GoMap Any :=
  [("temperature", float0_7)]

/-- The parameters of the test "gpt-4.1 rejects invalid parameters". -/
def fixtureMaxTokensOnly : GoMap Any :=
  [("max_tokens", Any.int 100)]

/-- The parameters of the validator test "invalid parameter". -/
def fixtureOneInvalid : GoMap Any :=
  [("temperature", float0_7), ("max_tokens", Any.int 100)]

/-- A configuration without base URL. -/
def fixtureConfigNoBaseURL : String → Outcome Config :=
  fun _ => Outcome.ret { OpenAI := { APIKey := "test-key", BaseURL := "" } }

/-- A response with one choice whose usage reports negative counts. -/
def fixtureNegativeUsage : ChatCompletionsResponse :=
  { Choices := [{ Message := { Content := "Hi" } }],
    Usage := { PromptTokens := -1, CompletionTokens := 2, TotalTokens := -5 },
    Error := { Message := "", Type_ := "", Code := "" } }

/-- A request whose parameters use both reserved names. -/
def fixtureCollision : ChatCompletionsRequest :=
  { Model := "gpt-4.1",
    Messages := [{ Role := "user", Content := "Hello" }],
    RequestParams := [("model", Any.str "gpt-5"), ("messages", Any.null), ("top_p", float0_9)] }

/-- A marshaller that accepts every body; the bytes are a placeholder. -/
def fixtureMarshal : GoMap Any → List Nat × GoError :=
  fun _ => ([123, 125], none)

/-- A request constructor that accepts every method and URL and whose parsed
URL prints as the URL given (as "http://example.com" does). -/
def fixtureNewRequest : String → String → String × GoError :=
  fun _ url => (url, none)

/-- The body of the test "successful creation". -/
def fixtureBody : GoMap Any :=
  [("key", Any.str "value")]

/-- The caller headers of the test "successful creation". -/
def fixtureHeaders : GoMap String :=
  [("Authorization", "Bearer token")]

/-- Caller headers with two distinct keys that name the same header. -/
def fixtureTwoAccepts : GoMap String :=
  [("accept", "text/plain"), ("Accept", "text/html")]

/-- The headers of `fixtureTwoAccepts`, visited in the other order. -/
def fixtureTwoAcceptsReversed : GoMap String :=
  [("Accept", "text/html"), ("accept", "text/plain")]

/-! ## Lemmas on maps -/

theorem GoMap.get?_set_self {V : Type} (m : GoMap V) (k : String) (v : V) :
    GoMap.get? (GoMap.set m k v) k = some v := by
  induction m with
  | nil => simp [GoMap.set, GoMap.get?]
  | cons e rest ih =>
    obtain ⟨k', v'⟩ := e
    by_cases h : k' = k
    · simp [GoMap.set, GoMap.get?, h]
    · simp [GoMap.set, GoMap.get?, h, ih]

theorem GoMap.get?_set_other {V : Type} (m : GoMap V) (k k' : String) (v : V) (hne : k' ≠ k) :
    GoMap.get? (GoMap.set m k v) k' = GoMap.get? m k' := by
  induction m with
  | nil => simp [GoMap.set, GoMap.get?, Ne.symm hne]
  | cons e rest ih =>
    obtain ⟨k1, v1⟩ := e
    by_cases h : k1 = k
    · subst h
      simp [GoMap.set, GoMap.get?, Ne.symm hne]
    · by_cases h1 : k1 = k'
      · subst h1
        simp [GoMap.set, GoMap.get?, h]
      · simp [GoMap.set, GoMap.get?, h, h1, ih]

theorem GoMap.mem_keys_set {V : Type} (m : GoMap V) (k k' : String) (v : V) :
    k' ∈ GoMap.keys (GoMap.set m k v) ↔ k' = k ∨ k' ∈ GoMap.keys m := by
  induction m with
  | nil => simp [GoMap.set, GoMap.keys]
  | cons e rest ih =>
    obtain ⟨k1, v1⟩ := e
    by_cases h : k1 = k
    · subst h
      simp [GoMap.set, GoMap.keys]
    · have ih1 : k' ∈ List.map Prod.fst (GoMap.set rest k v) ↔ k' = k ∨ k' ∈ List.map Prod.fst rest := ih
      simp only [GoMap.set, h, if_false, GoMap.keys, List.map_cons, List.mem_cons, ih1]
      tauto

theorem GoMap.wf_set {V : Type} (m : GoMap V) (k : String) (v : V) (hm : GoMap.WF m) :
    GoMap.WF (GoMap.set m k v) := by
  induction m with
  | nil => simp [GoMap.set, GoMap.WF, GoMap.keys]
  | cons e rest ih =>
    obtain ⟨k1, v1⟩ := e
    have hm1 : k1 ∉ GoMap.keys rest ∧ GoMap.WF rest := by
      simpa [GoMap.WF, GoMap.keys] using hm
    by_cases h : k1 = k
    · subst h
      simpa [GoMap.set, GoMap.WF, GoMap.keys] using hm
    · have hk : k1 ∉ GoMap.keys (GoMap.set rest k v) := by
        rw [GoMap.mem_keys_set]
        tauto
      have hw : GoMap.WF (GoMap.set rest k v) := ih hm1.2
      simp only [GoMap.set, h, if_false, GoMap.WF, GoMap.keys, List.map_cons, List.nodup_cons]
      exact ⟨hk, hw⟩

theorem GoMap.get?_eq_none_iff {V : Type} (m : GoMap V) (k : String) :
    GoMap.get? m k = none ↔ k ∉ GoMap.keys m := by
  induction m with
  | nil => simp [GoMap.get?, GoMap.keys]
  | cons e rest ih =>
    obtain ⟨k1, v1⟩ := e
    have ih1 : GoMap.get? rest k = none ↔ k ∉ List.map Prod.fst rest := ih
    by_cases h : k1 = k
    · simp [GoMap.get?, GoMap.keys, h]
    · simp only [GoMap.get?, h, if_false, GoMap.keys, List.map_cons, List.mem_cons, ih1]
      constructor
      · intro h1 h2
        rcases h2 with h2 | h2
        · exact h h2.symm
        · exact h1 h2
      · intro h1 h2
        exact h1 (Or.inr h2)

theorem GoMap.get?_of_mem {V : Type} (m : GoMap V) (k : String) (v : V) (hm : GoMap.WF m)
    (hkv : (k, v) ∈ m) : GoMap.get? m k = some v := by
  induction m with
  | nil => simp at hkv
  | cons e rest ih =>
    obtain ⟨k1, v1⟩ := e
    have hm1 : k1 ∉ GoMap.keys rest ∧ GoMap.WF rest := by
      simpa [GoMap.WF, GoMap.keys] using hm
    rcases List.mem_cons.mp hkv with heq | hin
    · cases heq
      simp [GoMap.get?]
    · have hne : k1 ≠ k := by
        intro h
        subst h
        exact hm1.1 (List.mem_map_of_mem Prod.fst hin)
      simp [GoMap.get?, hne, ih hm1.2 hin]

theorem GoMap.mem_keys_foldl_set {V : Type} (l init : GoMap V) (k : String) :
    k ∈ GoMap.keys (l.foldl (fun body kv => GoMap.set body kv.1 kv.2) init) ↔
      k ∈ GoMap.keys init ∨ k ∈ GoMap.keys l := by
  induction l generalizing init with
  | nil => simp [GoMap.keys]
  | cons e rest ih =>
    obtain ⟨k1, v1⟩ := e
    rw [List.foldl_cons, ih, GoMap.mem_keys_set]
    have hk : k ∈ GoMap.keys ((k1, v1) :: rest) ↔ k = k1 ∨ k ∈ GoMap.keys rest := by
      simp [GoMap.keys]
    rw [hk]
    tauto

theorem GoMap.wf_foldl_set {V : Type} (l init : GoMap V) (hinit : GoMap.WF init) :
    GoMap.WF (l.foldl (fun body kv => GoMap.set body kv.1 kv.2) init) := by
  induction l generalizing init with
  | nil => simpa using hinit
  | cons e rest ih =>
    rw [List.foldl_cons]
    exact ih _ (GoMap.wf_set _ _ _ hinit)

theorem GoMap.get?_foldl_set_of_not_mem {V : Type} (l init : GoMap V) (k : String)
    (hk : k ∉ GoMap.keys l) :
    GoMap.get? (l.foldl (fun body kv => GoMap.set body kv.1 kv.2) init) k = GoMap.get? init k := by
  induction l generalizing init with
  | nil => simp
  | cons e rest ih =>
    obtain ⟨k1, v1⟩ := e
    have hk1 : k ≠ k1 ∧ k ∉ GoMap.keys rest := by
      simpa [GoMap.keys] using hk
    rw [List.foldl_cons, ih _ hk1.2]
    exact GoMap.get?_set_other _ _ _ _ hk1.1

theorem GoMap.get?_foldl_set_of_mem {V : Type} (l init : GoMap V) (k : String) (v : V)
    (hl : GoMap.WF l) (hkv : (k, v) ∈ l) :
    GoMap.get? (l.foldl (fun body kv => GoMap.set body kv.1 kv.2) init) k = some v := by
  induction l generalizing init with
  | nil => simp at hkv
  | cons e rest ih =>
    obtain ⟨k1, v1⟩ := e
    have hl1 : k1 ∉ GoMap.keys rest ∧ GoMap.WF rest := by
      simpa [GoMap.WF, GoMap.keys] using hl
    rw [List.foldl_cons]
    rcases List.mem_cons.mp hkv with heq | hin
    · cases heq
      rw [GoMap.get?_foldl_set_of_not_mem _ _ _ hl1.1]
      exact GoMap.get?_set_self _ _ _
    · exact ih _ hl1.2 hin

/-! ## Validation -/

theorem ValidateModel_eq (availableModels : List Model) (modelName providerName : String) :
    ValidateModel availableModels modelName providerName =
      if (∃ m ∈ availableModels, m.Name = modelName) then none
      else some ("model " ++ modelName ++ " is not available in provider " ++ providerName) := by
  induction availableModels with
  | nil => simp [ValidateModel]
  | cons m rest ih =>
    by_cases h : m.Name = modelName
    · simp [ValidateModel, h]
    · simp only [ValidateModel, h, if_false, ih, List.mem_cons, exists_eq_or_imp, false_or]

/-- C1: `ValidateModel` returns no error exactly when some model of the list has
`Name()` equal to the requested name; otherwise the error text is
"model <modelName> is not available in provider <providerName>"; and the
result is the same for every reordering of the list. -/
theorem ValidateModel_contract (availableModels : List Model) (modelName providerName : String) :
    (ValidateModel availableModels modelName providerName = none ↔
      ∃ m ∈ availableModels, m.Name = modelName) ∧
    ((¬ ∃ m ∈ availableModels, m.Name = modelName) →
      ValidateModel availableModels modelName providerName =
        some ("model " ++ modelName ++ " is not available in provider " ++ providerName)) ∧
    (∀ reordered : List Model, reordered.Perm availableModels →
      ValidateModel reordered modelName providerName =
        ValidateModel availableModels modelName providerName) := by
  refine ⟨?_, ?_, ?_⟩
  · rw [ValidateModel_eq]
    by_cases h : ∃ m ∈ availableModels, m.Name = modelName
    · simp [h]
    · simp [h]
  · intro h
    rw [ValidateModel_eq, if_neg h]
  · intro reordered hperm
    have hiff : (∃ m ∈ reordered, m.Name = modelName) ↔ (∃ m ∈ availableModels, m.Name = modelName) := by
      constructor
      · rintro ⟨m, hm, hn⟩
        exact ⟨m, hperm.mem_iff.mp hm, hn⟩
      · rintro ⟨m, hm, hn⟩
        exact ⟨m, hperm.mem_iff.mpr hm, hn⟩
    rw [ValidateModel_eq, ValidateModel_eq]
    by_cases h : ∃ m ∈ availableModels, m.Name = modelName
    · rw [if_pos h, if_pos (hiff.mpr h)]
    · rw [if_neg h, if_neg (fun h1 => h (hiff.mp h1))]

theorem availableParamsMap_getD (availableParams : List String) (init : GoMap Bool) (k : String) :
    GoMap.getD (availableParams.foldl (fun acc param => GoMap.set acc param true) init) k false = true ↔
      GoMap.getD init k false = true ∨ k ∈ availableParams := by
  induction availableParams generalizing init with
  | nil => simp
  | cons a rest ih =>
    rw [List.foldl_cons, ih]
    by_cases h : k = a
    · subst h
      simp [GoMap.getD, GoMap.get?_set_self]
    · simp [GoMap.getD, GoMap.get?_set_other _ _ _ _ h, h]

theorem ValidateRequestParameters.check_eq_none_iff (availableParamsMap : GoMap Bool)
    (availableParams : List String) (modelName : String) (requestParameters : GoMap Any) :
    ValidateRequestParameters.check availableParamsMap availableParams modelName requestParameters = none ↔
      ∀ k ∈ GoMap.keys requestParameters, GoMap.getD availableParamsMap k false = true := by
  induction requestParameters with
  | nil => simp [ValidateRequestParameters.check, GoMap.keys]
  | cons e rest ih =>
    obtain ⟨key, value⟩ := e
    have ih1 : ValidateRequestParameters.check availableParamsMap availableParams modelName rest = none ↔
        ∀ k ∈ List.map Prod.fst rest, GoMap.getD availableParamsMap k false = true := ih
    by_cases h : GoMap.getD availableParamsMap key false = true
    · simp [ValidateRequestParameters.check, GoMap.keys, h, ih1]
    · simp [ValidateRequestParameters.check, GoMap.keys, h]

theorem ValidateRequestParameters.check_eq_of_keys_eq (availableParamsMap : GoMap Bool)
    (availableParams : List String) (modelName : String) (m1 m2 : GoMap Any)
    (hkeys : GoMap.keys m1 = GoMap.keys m2) :
    ValidateRequestParameters.check availableParamsMap availableParams modelName m1 =
      ValidateRequestParameters.check availableParamsMap availableParams modelName m2 := by
  induction m1 generalizing m2 with
  | nil =>
    cases m2 with
    | nil => rfl
    | cons e2 rest2 => simp [GoMap.keys] at hkeys
  | cons e1 rest1 ih =>
    cases m2 with
    | nil => simp [GoMap.keys] at hkeys
    | cons e2 rest2 =>
      obtain ⟨k1, v1⟩ := e1
      obtain ⟨k2, v2⟩ := e2
      have hk : k1 = k2 ∧ GoMap.keys rest1 = GoMap.keys rest2 := by
        simpa [GoMap.keys] using hkeys
      obtain ⟨hk1, hk2⟩ := hk
      subst hk1
      simp only [ValidateRequestParameters.check, ih rest2 hk2]

theorem ValidateRequestParameters_eq_none_iff (availableParams : List String)
    (requestParameters : GoMap Any) (modelName : String) :
    ValidateRequestParameters availableParams requestParameters modelName = none ↔
      ∀ k ∈ GoMap.keys requestParameters, k ∈ availableParams := by
  unfold ValidateRequestParameters
  simp only [ValidateRequestParameters.check_eq_none_iff, availableParamsMap_getD]
  simp [GoMap.getD, GoMap.get?]

/-- C2: `ValidateRequestParameters` returns no error exactly when every key of
the request map occurs in the accepted list. The empty map is accepted; one
key outside the accepted list makes the call fail whatever the other keys
are; whether the call is accepted depends only on the set of accepted names
(not their order or repetition) and only on the set of requested keys (not
the order in which they are visited); and the parameter values do not enter
the result at all: two maps with the same keys give the same return value. -/
theorem ValidateRequestParameters_contract (availableParams : List String)
    (requestParameters : GoMap Any) (modelName : String) :
    (ValidateRequestParameters availableParams requestParameters modelName = none ↔
      ∀ k ∈ GoMap.keys requestParameters, k ∈ availableParams) ∧
    ValidateRequestParameters availableParams [] modelName = none ∧
    (∀ k ∈ GoMap.keys requestParameters, k ∉ availableParams →
      ValidateRequestParameters availableParams requestParameters modelName ≠ none) ∧
    (∀ accepted : List String, (∀ k, k ∈ accepted ↔ k ∈ availableParams) →
      (ValidateRequestParameters accepted requestParameters modelName = none ↔
        ValidateRequestParameters availableParams requestParameters modelName = none)) ∧
    (∀ other : GoMap Any, (∀ k, k ∈ GoMap.keys other ↔ k ∈ GoMap.keys requestParameters) →
      (ValidateRequestParameters availableParams other modelName = none ↔
        ValidateRequestParameters availableParams requestParameters modelName = none)) ∧
    (∀ other : GoMap Any, GoMap.keys other = GoMap.keys requestParameters →
      ValidateRequestParameters availableParams other modelName =
        ValidateRequestParameters availableParams requestParameters modelName) := by
  refine ⟨ValidateRequestParameters_eq_none_iff _ _ _, ?_, ?_, ?_, ?_,
    fun other hkeys => ValidateRequestParameters.check_eq_of_keys_eq _ _ _ _ _ hkeys⟩
  · rw [ValidateRequestParameters_eq_none_iff]
    simp [GoMap.keys]
  · intro k hk hnot hnone
    rw [ValidateRequestParameters_eq_none_iff] at hnone
    exact hnot (hnone k hk)
  · intro accepted hsame
    rw [ValidateRequestParameters_eq_none_iff, ValidateRequestParameters_eq_none_iff]
    constructor
    · intro h k hk
      exact (hsame k).mp (h k hk)
    · intro h k hk
      exact (hsame k).mpr (h k hk)
  · intro other hsame
    rw [ValidateRequestParameters_eq_none_iff, ValidateRequestParameters_eq_none_iff]
    constructor
    · intro h k hk
      exact h k ((hsame k).mpr hk)
    · intro h k hk
      exact h k ((hsame k).mp hk)

/-! ## Response parsing -/

/-- C3: `ParseChatCompletionsResponse` returns a nil error exactly when the status
is 200, the error message is empty and there is a choice; whenever the error
is not nil the result is the zero value; and the checks come in the order
status, embedded error message, empty choices: a status other than 200 decides
the error whatever else the response holds, then a non-empty error message
does, then the empty choice list. -/
theorem ParseChatCompletionsResponse_contract (response : ChatCompletionsResponse) (statusCode : Int) :
    ((ParseChatCompletionsResponse response statusCode).2 = none ↔
      statusCode = 200 ∧ response.Error.Message = "" ∧ response.Choices ≠ []) ∧
    ((ParseChatCompletionsResponse response statusCode).2 ≠ none →
      (ParseChatCompletionsResponse response statusCode).1 = GenerateTextResult.zero) ∧
    (statusCode ≠ 200 →
      (ParseChatCompletionsResponse response statusCode).2 =
        some (if response.Error.Message ≠ "" then
          "API error (status " ++ fmtInt statusCode ++ "): " ++ response.Error.Message
            ++ " (type: " ++ response.Error.Type_ ++ ", code: " ++ response.Error.Code ++ ")"
        else "API request failed with status " ++ fmtInt statusCode)) ∧
    (statusCode = 200 → response.Error.Message ≠ "" →
      (ParseChatCompletionsResponse response statusCode).2 =
        some ("API error: " ++ response.Error.Message ++ " (type: " ++ response.Error.Type_ ++ ")")) ∧
    (statusCode = 200 → response.Error.Message = "" → response.Choices = [] →
      (ParseChatCompletionsResponse response statusCode).2 = some "no choices in API response") := by
  obtain ⟨choices, usage, err⟩ := response
  refine ⟨?_, ?_, ?_, ?_, ?_⟩
  · by_cases hs : statusCode = 200
    · by_cases hm : err.Message = ""
      · cases choices <;> simp [ParseChatCompletionsResponse, StatusOK, hs, hm]
      · simp [ParseChatCompletionsResponse, StatusOK, hs, hm]
    · by_cases hm : err.Message = ""
      · simp [ParseChatCompletionsResponse, StatusOK, hs, hm]
      · simp [ParseChatCompletionsResponse, StatusOK, hs, hm]
  · by_cases hs : statusCode = 200
    · by_cases hm : err.Message = ""
      · cases choices <;> simp [ParseChatCompletionsResponse, StatusOK, hs, hm]
      · simp [ParseChatCompletionsResponse, StatusOK, hs, hm]
    · by_cases hm : err.Message = ""
      · simp [ParseChatCompletionsResponse, StatusOK, hs, hm]
      · simp [ParseChatCompletionsResponse, StatusOK, hs, hm]
  · intro hs
    by_cases hm : err.Message = ""
    · simp [ParseChatCompletionsResponse, StatusOK, hs, hm]
    · simp [ParseChatCompletionsResponse, StatusOK, hs, hm]
  · intro hs hm
    simp [ParseChatCompletionsResponse, StatusOK, hs, hm]
  · intro hs hm hc
    simp only at hm hc
    simp [ParseChatCompletionsResponse, StatusOK, hs, hm, hc]

/-- C4: for status 200, an empty error message and at least one choice,
`ParseChatCompletionsResponse` returns a nil error and a result whose
`TextContent()` is the content of the first choice and whose `Usage()` has the
response's prompt, completion and total token counts, unchanged. -/
theorem ParseChatCompletionsResponse_success (response : ChatCompletionsResponse) (statusCode : Int)
    (first : Choice) (later : List Choice)
    (hstatus : statusCode = 200) (hmessage : response.Error.Message = "")
    (hchoices : response.Choices = first :: later) :
    (ParseChatCompletionsResponse response statusCode).2 = none ∧
    (ParseChatCompletionsResponse response statusCode).1.TextContent = first.Message.Content ∧
    (ParseChatCompletionsResponse response statusCode).1.Usage.PromptTokens =
      response.Usage.PromptTokens ∧
    (ParseChatCompletionsResponse response statusCode).1.Usage.CompletionTokens =
      response.Usage.CompletionTokens ∧
    (ParseChatCompletionsResponse response statusCode).1.Usage.TotalTokens =
      response.Usage.TotalTokens := by
  obtain ⟨choices, usage, err⟩ := response
  simp only at hmessage hchoices
  subst hstatus hchoices
  simp [ParseChatCompletionsResponse, StatusOK, hmessage, NewGenerateTextResult, NewTokenUsage,
    GenerateTextResult.TextContent, GenerateTextResult.Usage, TokenUsage.PromptTokens,
    TokenUsage.CompletionTokens, TokenUsage.TotalTokens]

/-- Witness of C4: one choice "Hello world" with usage (10, 20, 30). -/
theorem ParseChatCompletionsResponse_success_witness :
    (200 : Int) = 200 ∧ fixtureSuccess.Error.Message = "" ∧
    fixtureSuccess.Choices = [{ Message := { Content := "Hello world" } }] ∧
    (ParseChatCompletionsResponse fixtureSuccess 200).2 = none ∧
    (ParseChatCompletionsResponse fixtureSuccess 200).1.TextContent = "Hello world" ∧
    (ParseChatCompletionsResponse fixtureSuccess 200).1.Usage.PromptTokens = 10 ∧
    (ParseChatCompletionsResponse fixtureSuccess 200).1.Usage.CompletionTokens = 20 ∧
    (ParseChatCompletionsResponse fixtureSuccess 200).1.Usage.TotalTokens = 30 :=
  ⟨rfl, rfl, rfl,
    ParseChatCompletionsResponse_success fixtureSuccess 200 { Message := { Content := "Hello world" } } []
      rfl rfl rfl⟩

/-- C5: for a status other than 200 and a non-empty error message,
`ParseChatCompletionsResponse` fails with the zero result and the error text
"API error (status <status>): <message> (type: <type>, code: <code>)",
whatever the choices and the usage are. -/
theorem ParseChatCompletionsResponse_statusWithMessage (response : ChatCompletionsResponse)
    (statusCode : Int) (hstatus : statusCode ≠ 200) (hmessage : response.Error.Message ≠ "") :
    ParseChatCompletionsResponse response statusCode =
      (GenerateTextResult.zero,
        some ("API error (status " ++ fmtInt statusCode ++ "): " ++ response.Error.Message
          ++ " (type: " ++ response.Error.Type_ ++ ", code: " ++ response.Error.Code ++ ")")) := by
  simp [ParseChatCompletionsResponse, StatusOK, hstatus, hmessage]

/-- Witness of C5: status 401 with the error of the test "API error". -/
theorem ParseChatCompletionsResponse_statusWithMessage_witness :
    (401 : Int) ≠ 200 ∧ fixtureAPIError.Error.Message ≠ "" ∧
    ParseChatCompletionsResponse fixtureAPIError 401 =
      (GenerateTextResult.zero,
        some "API error (status 401): Invalid API key (type: authentication_error, code: invalid_api_key)") :=
  ⟨by decide, by decide,
    ParseChatCompletionsResponse_statusWithMessage fixtureAPIError 401 (by decide) (by decide)⟩

/-- C6: for a status other than 200 and an empty error message,
`ParseChatCompletionsResponse` fails with the zero result and the error text
"API request failed with status <status>", also when the response holds
choices. -/
theorem ParseChatCompletionsResponse_statusOnly (response : ChatCompletionsResponse)
    (statusCode : Int) (hstatus : statusCode ≠ 200) (hmessage : response.Error.Message = "") :
    ParseChatCompletionsResponse response statusCode =
      (GenerateTextResult.zero, some ("API request failed with status " ++ fmtInt statusCode)) := by
  simp [ParseChatCompletionsResponse, StatusOK, hstatus, hmessage]

/-- Witness of C6: status 500 with a response that holds a usable choice. -/
theorem ParseChatCompletionsResponse_statusOnly_witness :
    (500 : Int) ≠ 200 ∧ fixtureSuccess.Error.Message = "" ∧ fixtureSuccess.Choices ≠ [] ∧
    ParseChatCompletionsResponse fixtureSuccess 500 =
      (GenerateTextResult.zero, some "API request failed with status 500") :=
  ⟨by decide, rfl, by decide,
    ParseChatCompletionsResponse_statusOnly fixtureSuccess 500 (by decide) rfl⟩

/-- C7: for status 200 and a non-empty error message,
`ParseChatCompletionsResponse` fails with the zero result and the error text
"API error: <message> (type: <type>)", whether the choice list is empty or
not. -/
theorem ParseChatCompletionsResponse_embeddedError (response : ChatCompletionsResponse)
    (statusCode : Int) (hstatus : statusCode = 200) (hmessage : response.Error.Message ≠ "") :
    ParseChatCompletionsResponse response statusCode =
      (GenerateTextResult.zero,
        some ("API error: " ++ response.Error.Message ++ " (type: " ++ response.Error.Type_ ++ ")")) := by
  simp [ParseChatCompletionsResponse, StatusOK, hstatus, hmessage]

/-- Witness of C7: status 200, an error message and a usable choice. -/
theorem ParseChatCompletionsResponse_embeddedError_witness :
    (200 : Int) = 200 ∧ fixtureErrorWithChoice.Error.Message ≠ "" ∧
    fixtureErrorWithChoice.Choices ≠ [] ∧
    ParseChatCompletionsResponse fixtureErrorWithChoice 200 =
      (GenerateTextResult.zero, some "API error: Rate limited (type: rate_limit_error)") :=
  ⟨rfl, by decide, by decide,
    ParseChatCompletionsResponse_embeddedError fixtureErrorWithChoice 200 rfl (by decide)⟩

/-- C8: for status 200, an empty error message and no choice,
`ParseChatCompletionsResponse` fails with the error text
"no choices in API response" and the zero result, whatever the usage counts
are; in particular its error is not nil. -/
theorem ParseChatCompletionsResponse_noChoices (response : ChatCompletionsResponse)
    (statusCode : Int) (hstatus : statusCode = 200) (hmessage : response.Error.Message = "")
    (hchoices : response.Choices = []) :
    ParseChatCompletionsResponse response statusCode =
      (GenerateTextResult.zero, some "no choices in API response") ∧
    (ParseChatCompletionsResponse response statusCode).2 ≠ none := by
  obtain ⟨choices, usage, err⟩ := response
  simp only at hmessage hchoices
  simp [ParseChatCompletionsResponse, StatusOK, hstatus, hmessage, hchoices]

/-- Witness of C8: status 200, no choices, usage counts (10, 0, 10). -/
theorem ParseChatCompletionsResponse_noChoices_witness :
    (200 : Int) = 200 ∧ fixtureNoChoices.Error.Message = "" ∧ fixtureNoChoices.Choices = [] ∧
    ParseChatCompletionsResponse fixtureNoChoices 200 =
      (GenerateTextResult.zero, some "no choices in API response") ∧
    (ParseChatCompletionsResponse fixtureNoChoices 200).2 ≠ none :=
  ⟨rfl, rfl, rfl, ParseChatCompletionsResponse_noChoices fixtureNoChoices 200 rfl rfl rfl⟩

/-! ## Request building -/

theorem BuildChatCompletionsRequestBody_mem_keys (req : ChatCompletionsRequest) (k : String) :
    k ∈ GoMap.keys (BuildChatCompletionsRequestBody req) ↔
      k = "model" ∨ k = "messages" ∨ k ∈ GoMap.keys req.RequestParams := by
  unfold BuildChatCompletionsRequestBody
  simp only [GoMap.mem_keys_foldl_set]
  simp [GoMap.keys, or_assoc]

theorem BuildChatCompletionsRequestBody_wf (req : ChatCompletionsRequest) :
    GoMap.WF (BuildChatCompletionsRequestBody req) := by
  unfold BuildChatCompletionsRequestBody
  apply GoMap.wf_foldl_set
  simp [GoMap.WF, GoMap.keys]

theorem BuildChatCompletionsRequestBody_model (req : ChatCompletionsRequest)
    (hmodel : "model" ∉ GoMap.keys req.RequestParams) :
    GoMap.get? (BuildChatCompletionsRequestBody req) "model" = some (Any.str req.Model) := by
  unfold BuildChatCompletionsRequestBody
  simp only []
  rw [GoMap.get?_foldl_set_of_not_mem _ _ _ hmodel]
  simp [GoMap.get?]

theorem BuildChatCompletionsRequestBody_messages (req : ChatCompletionsRequest)
    (hmessages : "messages" ∉ GoMap.keys req.RequestParams) :
    GoMap.get? (BuildChatCompletionsRequestBody req) "messages" =
      some (Any.stringMaps
        (req.Messages.map (fun msg => [("role", msg.Role), ("content", msg.Content)]))) := by
  unfold BuildChatCompletionsRequestBody
  simp only []
  rw [GoMap.get?_foldl_set_of_not_mem _ _ _ hmessages]
  simp [GoMap.get?]

theorem BuildChatCompletionsRequestBody_param (req : ChatCompletionsRequest) (k : String) (v : Any)
    (hwf : GoMap.WF req.RequestParams) (hkv : (k, v) ∈ req.RequestParams) :
    GoMap.get? (BuildChatCompletionsRequestBody req) k = some v := by
  unfold BuildChatCompletionsRequestBody
  exact GoMap.get?_foldl_set_of_mem _ _ _ _ hwf hkv

/-- C9: when no parameter is named "model" or "messages",
`BuildChatCompletionsRequestBody` returns a map whose keys are exactly "model",
"messages" and the parameter names, each once; "model" maps to `req.Model`;
"messages" maps to a list as long as `req.Messages` whose entry `i` has exactly
the keys "role" and "content", holding the role and the content of message
`i`; and every parameter name maps to its value. -/
theorem BuildChatCompletionsRequestBody_contract (req : ChatCompletionsRequest)
    (hwf : GoMap.WF req.RequestParams)
    (hmodel : "model" ∉ GoMap.keys req.RequestParams)
    (hmessages : "messages" ∉ GoMap.keys req.RequestParams) :
    GoMap.WF (BuildChatCompletionsRequestBody req) ∧
    (∀ k, k ∈ GoMap.keys (BuildChatCompletionsRequestBody req) ↔
      k = "model" ∨ k = "messages" ∨ k ∈ GoMap.keys req.RequestParams) ∧
    GoMap.get? (BuildChatCompletionsRequestBody req) "model" = some (Any.str req.Model) ∧
    (∃ messages : List (GoMap String),
      GoMap.get? (BuildChatCompletionsRequestBody req) "messages" = some (Any.stringMaps messages) ∧
      messages.length = req.Messages.length ∧
      ∀ (i : Nat) (msg : ChatMessage), req.Messages[i]? = some msg →
        ∃ entry : GoMap String, messages[i]? = some entry ∧
          GoMap.WF entry ∧
          (∀ k, k ∈ GoMap.keys entry ↔ k = "role" ∨ k = "content") ∧
          GoMap.get? entry "role" = some msg.Role ∧
          GoMap.get? entry "content" = some msg.Content) ∧
    (∀ k v, (k, v) ∈ req.RequestParams →
      GoMap.get? (BuildChatCompletionsRequestBody req) k = some v) := by
  refine ⟨BuildChatCompletionsRequestBody_wf req, BuildChatCompletionsRequestBody_mem_keys req,
    BuildChatCompletionsRequestBody_model req hmodel, ?_,
    fun k v hkv => BuildChatCompletionsRequestBody_param req k v hwf hkv⟩
  refine ⟨_, BuildChatCompletionsRequestBody_messages req hmessages, by simp, ?_⟩
  intro i msg hi
  refine ⟨[("role", msg.Role), ("content", msg.Content)], ?_, ?_, ?_, ?_, ?_⟩
  · simp [List.getElem?_map, hi]
  · simp [GoMap.WF, GoMap.keys]
  · intro k
    simp [GoMap.keys]
  · simp [GoMap.get?]
  · simp [GoMap.get?]

/-- Witness of C9: the request of `TestBuildChatCompletionsRequestBody`. -/
theorem BuildChatCompletionsRequestBody_contract_witness :
    GoMap.WF fixtureRequest.RequestParams ∧
    "model" ∉ GoMap.keys fixtureRequest.RequestParams ∧
    "messages" ∉ GoMap.keys fixtureRequest.RequestParams ∧
    GoMap.get? (BuildChatCompletionsRequestBody fixtureRequest) "model" = some (Any.str "gpt-4") ∧
    (∀ k v, (k, v) ∈ fixtureRequest.RequestParams →
      GoMap.get? (BuildChatCompletionsRequestBody fixtureRequest) k = some v) :=
  ⟨by decide, by decide, by decide,
    (BuildChatCompletionsRequestBody_contract fixtureRequest (by decide) (by decide) (by decide)).2.2.1,
    (BuildChatCompletionsRequestBody_contract fixtureRequest (by decide) (by decide) (by decide)).2.2.2.2⟩

/-! ## The provider -/

theorem NewOpenAIChatCompletionsProvider_ret (LoadConfig : String → Outcome Config)
    (configFile : String) (p : OpenAIChatCompletionsProvider)
    (hp : NewOpenAIChatCompletionsProvider LoadConfig configFile = Outcome.ret p) :
    p.availableModels =
      [ { name := "gpt-4.1", parameters := ["temperature", "top_p"] },
        { name := "gpt-5", parameters := [] } ] ∧
    p.modelParameters = [("gpt-4.1", ["temperature", "top_p"]), ("gpt-5", [])] ∧
    p.name = "OpenAI Chat Completions" := by
  unfold NewOpenAIChatCompletionsProvider at hp
  cases hload : LoadConfig configFile with
  | panic value => simp [hload] at hp
  | ret cfg =>
    simp only [hload] at hp
    by_cases hkey : cfg.OpenAI.APIKey = ""
    · simp [hkey] at hp
    · simp only [hkey, if_false, Outcome.ret.injEq] at hp
      subst hp
      exact ⟨rfl, rfl, rfl⟩

theorem GenerateText_requests_of_valid (p : OpenAIChatCompletionsProvider) (exchange : Exchange)
    (prompt modelName : String) (requestParameters : GoMap Any)
    (hmodel : ValidateModel p.availableModels modelName p.Name = none)
    (hparams : ValidateRequestParameters (p.AvailableRequestParameters modelName)
      requestParameters modelName = none) :
    (p.GenerateText exchange prompt modelName requestParameters).requests =
      [({ BaseURL := p.baseURL, Endpoint := "/chat/completions", APIKey := p.apiKey,
          HTTPClient := p.httpClient },
        BuildChatCompletionsRequestBody
          { Model := modelName, Messages := [{ Role := "user", Content := prompt }],
            RequestParams := requestParameters })] := by
  unfold OpenAIChatCompletionsProvider.GenerateText
  simp only [hmodel, hparams]
  split <;> rfl

theorem AvailableRequestParameters_subset (LoadConfig : String → Outcome Config)
    (configFile : String) (p : OpenAIChatCompletionsProvider)
    (hp : NewOpenAIChatCompletionsProvider LoadConfig configFile = Outcome.ret p)
    (modelName k : String) (hk : k ∈ p.AvailableRequestParameters modelName) :
    k = "temperature" ∨ k = "top_p" := by
  obtain ⟨_, htable, _⟩ := NewOpenAIChatCompletionsProvider_ret LoadConfig configFile p hp
  unfold OpenAIChatCompletionsProvider.AvailableRequestParameters at hk
  rw [htable] at hk
  by_cases h1 : "gpt-4.1" = modelName
  · simpa [GoMap.get?, h1] using hk
  · by_cases h2 : "gpt-5" = modelName
    · simp [GoMap.get?, h1, h2] at hk
    · simp [GoMap.get?, h1, h2] at hk

/-- C10: for a provider built by `NewOpenAIChatCompletionsProvider`, a model name
of its catalog and a parameter map that passes `ValidateRequestParameters` for
that model, `GenerateText` issues one request, whose body maps "model" to the
requested model name, "messages" to a list of exactly one entry with role
"user" and the prompt as content, and every parameter name to its value; a
parameter map that passes validation has no key "model" or "messages". -/
theorem GenerateText_requestBody (LoadConfig : String → Outcome Config) (configFile : String)
    (p : OpenAIChatCompletionsProvider) (exchange : Exchange) (prompt modelName : String)
    (requestParameters : GoMap Any)
    (hp : NewOpenAIChatCompletionsProvider LoadConfig configFile = Outcome.ret p)
    (hname : ∃ m ∈ p.AvailableModels, m.Name = modelName)
    (hwf : GoMap.WF requestParameters)
    (hvalid : ValidateRequestParameters (p.AvailableRequestParameters modelName)
      requestParameters modelName = none) :
    "model" ∉ GoMap.keys requestParameters ∧
    "messages" ∉ GoMap.keys requestParameters ∧
    ∃ (cfg : ChatCompletionsConfig) (body : GoMap Any),
      (p.GenerateText exchange prompt modelName requestParameters).requests = [(cfg, body)] ∧
      GoMap.get? body "model" = some (Any.str modelName) ∧
      (∃ entry : GoMap String,
        GoMap.get? body "messages" = some (Any.stringMaps [entry]) ∧
        GoMap.WF entry ∧
        (∀ k, k ∈ GoMap.keys entry ↔ k = "role" ∨ k = "content") ∧
        GoMap.get? entry "role" = some "user" ∧
        GoMap.get? entry "content" = some prompt) ∧
      (∀ k v, (k, v) ∈ requestParameters → GoMap.get? body k = some v) := by
  have hkeys : ∀ k ∈ GoMap.keys requestParameters, k = "temperature" ∨ k = "top_p" := by
    intro k hk
    exact AvailableRequestParameters_subset LoadConfig configFile p hp modelName k
      ((ValidateRequestParameters_eq_none_iff _ _ _).mp hvalid k hk)
  have hmodel : "model" ∉ GoMap.keys requestParameters := by
    intro h
    rcases hkeys _ h with h1 | h1 <;> exact absurd h1 (by decide)
  have hmessages : "messages" ∉ GoMap.keys requestParameters := by
    intro h
    rcases hkeys _ h with h1 | h1 <;> exact absurd h1 (by decide)
  have hvm : ValidateModel p.availableModels modelName p.Name = none := by
    rw [ValidateModel_eq]
    exact if_pos hname
  refine ⟨hmodel, hmessages, _, _,
    GenerateText_requests_of_valid p exchange prompt modelName requestParameters hvm hvalid,
    BuildChatCompletionsRequestBody_model _ hmodel, ?_,
    fun k v hkv => BuildChatCompletionsRequestBody_param _ k v hwf hkv⟩
  refine ⟨[("role", "user"), ("content", prompt)],
    BuildChatCompletionsRequestBody_messages _ hmessages, ?_, ?_, ?_, ?_⟩
  · simp [GoMap.WF, GoMap.keys]
  · intro k
    simp [GoMap.keys]
  · simp [GoMap.get?]
  · simp [GoMap.get?]

/-- Witness of C10: the provider of the tests, model "gpt-4.1", prompt "Hello"
and the parameters temperature 0.7 and top_p 0.9. -/
theorem GenerateText_requestBody_witness :
    NewOpenAIChatCompletionsProvider fixtureLoadConfig "test_config.yaml" = Outcome.ret fixtureProvider ∧
    (∃ m ∈ fixtureProvider.AvailableModels, m.Name = "gpt-4.1") ∧
    GoMap.WF fixtureParameters ∧
    ValidateRequestParameters (fixtureProvider.AvailableRequestParameters "gpt-4.1")
      fixtureParameters "gpt-4.1" = none ∧
    ("model" ∉ GoMap.keys fixtureParameters ∧
    "messages" ∉ GoMap.keys fixtureParameters ∧
    ∃ (cfg : ChatCompletionsConfig) (body : GoMap Any),
      (fixtureProvider.GenerateText fixtureExchange "Hello" "gpt-4.1" fixtureParameters).requests =
        [(cfg, body)] ∧
      GoMap.get? body "model" = some (Any.str "gpt-4.1") ∧
      (∃ entry : GoMap String,
        GoMap.get? body "messages" = some (Any.stringMaps [entry]) ∧
        GoMap.WF entry ∧
        (∀ k, k ∈ GoMap.keys entry ↔ k = "role" ∨ k = "content") ∧
        GoMap.get? entry "role" = some "user" ∧
        GoMap.get? entry "content" = some "Hello") ∧
      (∀ k v, (k, v) ∈ fixtureParameters → GoMap.get? body k = some v)) :=
  ⟨by decide, ⟨{ name := "gpt-4.1", parameters := ["temperature", "top_p"] }, by decide, by decide⟩,
    by decide, by decide,
    GenerateText_requestBody fixtureLoadConfig "test_config.yaml" fixtureProvider fixtureExchange
      "Hello" "gpt-4.1" fixtureParameters (by decide)
      ⟨{ name := "gpt-4.1", parameters := ["temperature", "top_p"] }, by decide, by decide⟩
      (by decide) (by decide)⟩

theorem GenerateText_of_invalid_model (p : OpenAIChatCompletionsProvider) (exchange : Exchange)
    (prompt modelName : String) (requestParameters : GoMap Any) (text : String)
    (hmodel : ValidateModel p.availableModels modelName p.Name = some text) :
    (p.GenerateText exchange prompt modelName requestParameters).requests = [] ∧
    (p.GenerateText exchange prompt modelName requestParameters).outcome =
      Outcome.panic (PanicValue.str text) := by
  unfold OpenAIChatCompletionsProvider.GenerateText
  simp [hmodel]

theorem GenerateText_of_invalid_parameters (p : OpenAIChatCompletionsProvider) (exchange : Exchange)
    (prompt modelName : String) (requestParameters : GoMap Any) (text : String)
    (hmodel : ValidateModel p.availableModels modelName p.Name = none)
    (hparams : ValidateRequestParameters (p.AvailableRequestParameters modelName)
      requestParameters modelName = some text) :
    (p.GenerateText exchange prompt modelName requestParameters).requests = [] ∧
    (p.GenerateText exchange prompt modelName requestParameters).outcome =
      Outcome.panic (PanicValue.str text) := by
  unfold OpenAIChatCompletionsProvider.GenerateText
  simp [hmodel, hparams]

theorem ValidateRequestParameters_eq_some_of_invalid (availableParams : List String)
    (requestParameters : GoMap Any) (modelName : String)
    (hbad : ∃ k ∈ GoMap.keys requestParameters, k ∉ availableParams) :
    ∃ text, ValidateRequestParameters availableParams requestParameters modelName = some text := by
  cases h : ValidateRequestParameters availableParams requestParameters modelName with
  | some text => exact ⟨text, rfl⟩
  | none =>
    obtain ⟨k, hk, hnot⟩ := hbad
    exact absurd ((ValidateRequestParameters_eq_none_iff _ _ _).mp h k hk) hnot

theorem AvailableRequestParameters_values (LoadConfig : String → Outcome Config)
    (configFile : String) (p : OpenAIChatCompletionsProvider)
    (hp : NewOpenAIChatCompletionsProvider LoadConfig configFile = Outcome.ret p) :
    p.AvailableRequestParameters "gpt-4.1" = ["temperature", "top_p"] ∧
    p.AvailableRequestParameters "gpt-5" = [] ∧
    (∀ modelName, modelName ≠ "gpt-4.1" → modelName ≠ "gpt-5" →
      p.AvailableRequestParameters modelName = []) := by
  obtain ⟨_, htable, _⟩ := NewOpenAIChatCompletionsProvider_ret LoadConfig configFile p hp
  refine ⟨?_, ?_, ?_⟩
  · simp [OpenAIChatCompletionsProvider.AvailableRequestParameters, htable, GoMap.get?]
  · simp [OpenAIChatCompletionsProvider.AvailableRequestParameters, htable, GoMap.get?]
  · intro modelName h1 h2
    simp [OpenAIChatCompletionsProvider.AvailableRequestParameters, htable, GoMap.get?,
      Ne.symm h1, Ne.symm h2]

theorem ValidateModel_of_catalog (LoadConfig : String → Outcome Config)
    (configFile : String) (p : OpenAIChatCompletionsProvider)
    (hp : NewOpenAIChatCompletionsProvider LoadConfig configFile = Outcome.ret p) :
    ValidateModel p.availableModels "gpt-4.1" p.Name = none ∧
    ValidateModel p.availableModels "gpt-5" p.Name = none := by
  obtain ⟨hmodels, _, _⟩ := NewOpenAIChatCompletionsProvider_ret LoadConfig configFile p hp
  rw [hmodels]
  exact ⟨by simp [ValidateModel, Model.Name], by simp [ValidateModel, Model.Name]⟩

/-- C11: for a provider built by `NewOpenAIChatCompletionsProvider`, a model name
outside the catalog makes `GenerateText` end with the error text of
`ValidateModel` (which names the model and the provider, whose name is
"OpenAI Chat Completions"), and a catalog model with a parameter key outside its accepted
list makes it end with the error text of `ValidateRequestParameters`; in both
cases the text is the value of a panic and no request is issued. With model
"gpt-5" this happens for every non-empty parameter map, with "gpt-4.1" for
every map that has the key "max_tokens". -/
theorem GenerateText_rejects_before_request (LoadConfig : String → Outcome Config)
    (configFile : String) (p : OpenAIChatCompletionsProvider) (exchange : Exchange)
    (prompt modelName : String) (requestParameters : GoMap Any)
    (hp : NewOpenAIChatCompletionsProvider LoadConfig configFile = Outcome.ret p) :
    ((¬ ∃ m ∈ p.AvailableModels, m.Name = modelName) →
      (p.GenerateText exchange prompt modelName requestParameters).requests = [] ∧
      (p.GenerateText exchange prompt modelName requestParameters).outcome =
        Outcome.panic (PanicValue.str
          ("model " ++ modelName ++ " is not available in provider " ++ p.Name))) ∧
    p.Name = "OpenAI Chat Completions" ∧
    ((∃ m ∈ p.AvailableModels, m.Name = modelName) →
      (∃ k ∈ GoMap.keys requestParameters, k ∉ p.AvailableRequestParameters modelName) →
      ∃ text,
        ValidateRequestParameters (p.AvailableRequestParameters modelName) requestParameters
          modelName = some text ∧
        (p.GenerateText exchange prompt modelName requestParameters).requests = [] ∧
        (p.GenerateText exchange prompt modelName requestParameters).outcome =
          Outcome.panic (PanicValue.str text)) ∧
    (requestParameters ≠ [] →
      ∃ text,
        ValidateRequestParameters (p.AvailableRequestParameters "gpt-5") requestParameters
          "gpt-5" = some text ∧
        (p.GenerateText exchange prompt "gpt-5" requestParameters).requests = [] ∧
        (p.GenerateText exchange prompt "gpt-5" requestParameters).outcome =
          Outcome.panic (PanicValue.str text)) ∧
    ("max_tokens" ∈ GoMap.keys requestParameters →
      ∃ text,
        ValidateRequestParameters (p.AvailableRequestParameters "gpt-4.1") requestParameters
          "gpt-4.1" = some text ∧
        (p.GenerateText exchange prompt "gpt-4.1" requestParameters).requests = [] ∧
        (p.GenerateText exchange prompt "gpt-4.1" requestParameters).outcome =
          Outcome.panic (PanicValue.str text)) := by
  obtain ⟨_, _, hname⟩ := NewOpenAIChatCompletionsProvider_ret LoadConfig configFile p hp
  obtain ⟨h41, h5, _⟩ := AvailableRequestParameters_values LoadConfig configFile p hp
  obtain ⟨hv41, hv5⟩ := ValidateModel_of_catalog LoadConfig configFile p hp
  refine ⟨?_, hname, ?_, ?_, ?_⟩
  · intro hno
    have hvm : ValidateModel p.availableModels modelName p.Name =
        some ("model " ++ modelName ++ " is not available in provider " ++ p.Name) := by
      rw [ValidateModel_eq]
      exact if_neg hno
    exact GenerateText_of_invalid_model p exchange prompt modelName requestParameters _ hvm
  · intro hin hbad
    have hvm : ValidateModel p.availableModels modelName p.Name = none := by
      rw [ValidateModel_eq]
      exact if_pos hin
    obtain ⟨text, htext⟩ := ValidateRequestParameters_eq_some_of_invalid _ _ modelName hbad
    exact ⟨text, htext,
      GenerateText_of_invalid_parameters p exchange prompt modelName requestParameters text hvm htext⟩
  · intro hne
    have hbad : ∃ k ∈ GoMap.keys requestParameters, k ∉ p.AvailableRequestParameters "gpt-5" := by
      cases requestParameters with
      | nil => exact absurd rfl hne
      | cons e rest => exact ⟨e.1, by simp [GoMap.keys], by simp [h5]⟩
    obtain ⟨text, htext⟩ := ValidateRequestParameters_eq_some_of_invalid _ _ "gpt-5" hbad
    exact ⟨text, htext,
      GenerateText_of_invalid_parameters p exchange prompt "gpt-5" requestParameters text hv5 htext⟩
  · intro hmax
    have hbad : ∃ k ∈ GoMap.keys requestParameters, k ∉ p.AvailableRequestParameters "gpt-4.1" :=
      ⟨"max_tokens", hmax, by rw [h41]; decide⟩
    obtain ⟨text, htext⟩ := ValidateRequestParameters_eq_some_of_invalid _ _ "gpt-4.1" hbad
    exact ⟨text, htext,
      GenerateText_of_invalid_parameters p exchange prompt "gpt-4.1" requestParameters text hv41 htext⟩

/-- Witness of C11: the provider of the tests, model "gpt-5" and the parameter
temperature 0.7. -/
theorem GenerateText_rejects_before_request_witness :
    NewOpenAIChatCompletionsProvider fixtureLoadConfig "test_config.yaml" = Outcome.ret fixtureProvider ∧
    fixtureTemperatureOnly ≠ [] ∧
    ∃ text,
      ValidateRequestParameters (fixtureProvider.AvailableRequestParameters "gpt-5")
        fixtureTemperatureOnly "gpt-5" = some text ∧
      (fixtureProvider.GenerateText fixtureExchange "test" "gpt-5" fixtureTemperatureOnly).requests = [] ∧
      (fixtureProvider.GenerateText fixtureExchange "test" "gpt-5" fixtureTemperatureOnly).outcome =
        Outcome.panic (PanicValue.str text) :=
  ⟨by decide, by decide,
    (GenerateText_rejects_before_request fixtureLoadConfig "test_config.yaml" fixtureProvider
      fixtureExchange "test" "gpt-5" fixtureTemperatureOnly (by decide)).2.2.2.1 (by decide)⟩

/-- Counterexample to C12: with the provider of the tests and the unknown model
name "invalid-model-name", `GenerateText` does not return an error: the call
ends in a panic whose value is the text of the validation error. -/
theorem GenerateText_unknown_model_not_returned :
    NewOpenAIChatCompletionsProvider fixtureLoadConfig "test_config.yaml" = Outcome.ret fixtureProvider ∧
    (fixtureProvider.GenerateText fixtureExchange "test" "invalid-model-name" []).outcome =
      Outcome.panic (PanicValue.str
        "model invalid-model-name is not available in provider OpenAI Chat Completions") ∧
    ¬ ∃ (result : GenerateTextResult) (err : GoError),
      (fixtureProvider.GenerateText fixtureExchange "test" "invalid-model-name" []).outcome =
        Outcome.ret (result, err) := by
  have hout : (fixtureProvider.GenerateText fixtureExchange "test" "invalid-model-name" []).outcome =
      Outcome.panic (PanicValue.str
        "model invalid-model-name is not available in provider OpenAI Chat Completions") := by
    decide
  refine ⟨by decide, hout, ?_⟩
  rintro ⟨result, err, h⟩
  rw [hout] at h
  cases h

/-- C12, amended: `GenerateText` returns to its caller the errors of the HTTP
exchange and of response parsing, as the error component of its return value,
but not validation failures: for an unknown model name and for an unsupported
parameter the call ends in a panic whose value is the validator's error text
(a string). -/
theorem GenerateText_error_channels (p : OpenAIChatCompletionsProvider) (exchange : Exchange)
    (prompt modelName : String) (requestParameters : GoMap Any) :
    ((¬ ∃ m ∈ p.AvailableModels, m.Name = modelName) →
      (p.GenerateText exchange prompt modelName requestParameters).outcome =
        Outcome.panic (PanicValue.str
          ("model " ++ modelName ++ " is not available in provider " ++ p.Name))) ∧
    ((∃ m ∈ p.AvailableModels, m.Name = modelName) →
      (∃ k ∈ GoMap.keys requestParameters, k ∉ p.AvailableRequestParameters modelName) →
      ∃ text,
        ValidateRequestParameters (p.AvailableRequestParameters modelName) requestParameters
          modelName = some text ∧
        (p.GenerateText exchange prompt modelName requestParameters).outcome =
          Outcome.panic (PanicValue.str text)) ∧
    ((∃ m ∈ p.AvailableModels, m.Name = modelName) →
      (∀ k ∈ GoMap.keys requestParameters, k ∈ p.AvailableRequestParameters modelName) →
      ∀ (response : ChatCompletionsResponse) (statusCode : Int) (err : GoError),
        exchange
          { BaseURL := p.baseURL, Endpoint := "/chat/completions", APIKey := p.apiKey,
            HTTPClient := p.httpClient }
          (BuildChatCompletionsRequestBody
            { Model := modelName, Messages := [{ Role := "user", Content := prompt }],
              RequestParams := requestParameters }) = (response, statusCode, err) →
        (p.GenerateText exchange prompt modelName requestParameters).outcome =
          Outcome.ret
            (match err with
             | some e => (GenerateTextResult.zero, some e)
             | none => ParseChatCompletionsResponse response statusCode)) := by
  refine ⟨?_, ?_, ?_⟩
  · intro hno
    have hvm : ValidateModel p.availableModels modelName p.Name =
        some ("model " ++ modelName ++ " is not available in provider " ++ p.Name) := by
      rw [ValidateModel_eq]
      exact if_neg hno
    exact (GenerateText_of_invalid_model p exchange prompt modelName requestParameters _ hvm).2
  · intro hin hbad
    have hvm : ValidateModel p.availableModels modelName p.Name = none := by
      rw [ValidateModel_eq]
      exact if_pos hin
    obtain ⟨text, htext⟩ := ValidateRequestParameters_eq_some_of_invalid _ _ modelName hbad
    exact ⟨text, htext,
      (GenerateText_of_invalid_parameters p exchange prompt modelName requestParameters text
        hvm htext).2⟩
  · intro hin hall response statusCode err hex
    have hvm : ValidateModel p.availableModels modelName p.Name = none := by
      rw [ValidateModel_eq]
      exact if_pos hin
    have hvp : ValidateRequestParameters (p.AvailableRequestParameters modelName)
        requestParameters modelName = none :=
      (ValidateRequestParameters_eq_none_iff _ _ _).mpr hall
    unfold OpenAIChatCompletionsProvider.GenerateText
    simp only [hvm, hvp, hex]
    cases err <;> rfl

theorem ValidateRequestParameters.check_eq_some (availableParamsMap : GoMap Bool)
    (availableParams : List String) (modelName : String) (requestParameters : GoMap Any)
    (text : String)
    (hfail : ValidateRequestParameters.check availableParamsMap availableParams modelName
      requestParameters = some text) :
    ∃ k, k ∈ GoMap.keys requestParameters ∧ GoMap.getD availableParamsMap k false = false ∧
      text = "request parameter '" ++ k ++ "' is not available for model " ++ modelName
        ++ ". Available parameters: " ++ fmtStringSlice availableParams := by
  induction requestParameters with
  | nil => simp [ValidateRequestParameters.check] at hfail
  | cons e rest ih =>
    obtain ⟨key, value⟩ := e
    by_cases h : GoMap.getD availableParamsMap key false = true
    · simp only [ValidateRequestParameters.check, h, Bool.not_true, Bool.false_eq_true,
        if_false] at hfail
      obtain ⟨k, hk, hnot, htext⟩ := ih hfail
      exact ⟨k, by simp [GoMap.keys] at hk ⊢; exact Or.inr hk, hnot, htext⟩
    · have hf : GoMap.getD availableParamsMap key false = false := by
        simpa using h
      simp only [ValidateRequestParameters.check, hf, Bool.not_false, if_true,
        Option.some.injEq] at hfail
      exact ⟨key, by simp [GoMap.keys], hf, hfail.symm⟩

/-- C13: whenever `ValidateRequestParameters` fails, its error text is
"request parameter '<k>' is not available for model <modelName>. Available
parameters: [<the accepted names, in the given order, separated by single
spaces>]" for a key `k` of the request map that is not in the accepted list;
when all the invalid keys of the request are one key, `k` is that key. -/
theorem ValidateRequestParameters_error_text (availableParams : List String)
    (requestParameters : GoMap Any) (modelName : String) (text : String)
    (hfail : ValidateRequestParameters availableParams requestParameters modelName = some text) :
    ∃ k, k ∈ GoMap.keys requestParameters ∧ k ∉ availableParams ∧
      text = "request parameter '" ++ k ++ "' is not available for model " ++ modelName
        ++ ". Available parameters: " ++ ("[" ++ " ".intercalate availableParams ++ "]") ∧
      (∀ only, (∀ k' ∈ GoMap.keys requestParameters, k' ∉ availableParams → k' = only) →
        k = only) := by
  unfold ValidateRequestParameters at hfail
  obtain ⟨k, hk, hnot, htext⟩ := ValidateRequestParameters.check_eq_some _ _ _ _ _ hfail
  have hout : k ∉ availableParams := by
    intro hin
    have htrue := (availableParamsMap_getD availableParams [] k).mpr (Or.inr hin)
    rw [hnot] at htrue
    exact absurd htrue (by decide)
  exact ⟨k, hk, hout, htext, fun only honly => honly k hk hout⟩

/-- Witness of C13: accepted [temperature top_p], request with the keys
temperature and max_tokens, model gpt-4. -/
theorem ValidateRequestParameters_error_text_witness :
    ValidateRequestParameters ["temperature", "top_p"] fixtureOneInvalid "gpt-4" =
      some ("request parameter 'max_tokens' is not available for model gpt-4. "
        ++ "Available parameters: [temperature top_p]") ∧
    ∃ k, k ∈ GoMap.keys fixtureOneInvalid ∧ k ∉ ["temperature", "top_p"] ∧
      ("request parameter 'max_tokens' is not available for model gpt-4. "
        ++ "Available parameters: [temperature top_p]") =
        "request parameter '" ++ k ++ "' is not available for model " ++ "gpt-4"
          ++ ". Available parameters: " ++ ("[" ++ " ".intercalate ["temperature", "top_p"] ++ "]") ∧
      (∀ only, (∀ k' ∈ GoMap.keys fixtureOneInvalid, k' ∉ ["temperature", "top_p"] → k' = only) →
        k = only) :=
  ⟨by decide,
    ValidateRequestParameters_error_text ["temperature", "top_p"] fixtureOneInvalid "gpt-4" _
      (by decide)⟩

/-- C14: for a provider built by `NewOpenAIChatCompletionsProvider`,
`AvailableModels()` is the two models named "gpt-4.1" and "gpt-5", in that
order; `AvailableRequestParameters` is [temperature, top_p] for "gpt-4.1", the
empty list for "gpt-5" and the empty list for every other name; and it is a
function of the name alone: every provider built by the constructor, from
whatever configuration, gives the same list for the same name. -/
theorem catalog_contract (LoadConfig : String → Outcome Config)
    (configFile : String) (p : OpenAIChatCompletionsProvider)
    (hp : NewOpenAIChatCompletionsProvider LoadConfig configFile = Outcome.ret p) :
    p.AvailableModels.map Model.Name = ["gpt-4.1", "gpt-5"] ∧
    (p.AvailableModels.map Model.Name).Nodup ∧
    p.AvailableRequestParameters "gpt-4.1" = ["temperature", "top_p"] ∧
    p.AvailableRequestParameters "gpt-5" = [] ∧
    (∀ modelName, modelName ≠ "gpt-4.1" → modelName ≠ "gpt-5" →
      p.AvailableRequestParameters modelName = []) ∧
    (∀ (LoadConfig2 : String → Outcome Config) (configFile2 : String)
      (q : OpenAIChatCompletionsProvider),
      NewOpenAIChatCompletionsProvider LoadConfig2 configFile2 = Outcome.ret q →
      ∀ modelName, q.AvailableRequestParameters modelName = p.AvailableRequestParameters modelName) := by
  obtain ⟨hmodels, htable, _⟩ := NewOpenAIChatCompletionsProvider_ret LoadConfig configFile p hp
  obtain ⟨h41, h5, hother⟩ := AvailableRequestParameters_values LoadConfig configFile p hp
  have hnames : p.AvailableModels.map Model.Name = ["gpt-4.1", "gpt-5"] := by
    simp [OpenAIChatCompletionsProvider.AvailableModels, hmodels, Model.Name]
  refine ⟨hnames, ?_, h41, h5, hother, ?_⟩
  · rw [hnames]
    decide
  · intro LoadConfig2 configFile2 q hq modelName
    obtain ⟨_, htable2, _⟩ := NewOpenAIChatCompletionsProvider_ret LoadConfig2 configFile2 q hq
    simp only [OpenAIChatCompletionsProvider.AvailableRequestParameters, htable, htable2]

/-- Witness of C14: the provider of the tests. -/
theorem catalog_contract_witness :
    NewOpenAIChatCompletionsProvider fixtureLoadConfig "test_config.yaml" = Outcome.ret fixtureProvider ∧
    fixtureProvider.AvailableModels.map Model.Name = ["gpt-4.1", "gpt-5"] ∧
    fixtureProvider.AvailableRequestParameters "gpt-4.1" = ["temperature", "top_p"] ∧
    fixtureProvider.AvailableRequestParameters "gpt-5" = [] :=
  ⟨by decide,
    (catalog_contract fixtureLoadConfig "test_config.yaml" fixtureProvider (by decide)).1,
    (catalog_contract fixtureLoadConfig "test_config.yaml" fixtureProvider (by decide)).2.2.1,
    (catalog_contract fixtureLoadConfig "test_config.yaml" fixtureProvider (by decide)).2.2.2.1⟩

/-- C15: given a loaded configuration, the constructor panics exactly when
`openai.api_key` is empty, and then with the value
"openai.api_key is required in config file"; otherwise it returns a provider
whose `Config()` maps "api_key" to the configured key and "base_url" to the
configured base URL when that is not empty and to "https://api.openai.com/v1"
when it is, and whose name is "OpenAI Chat Completions". -/
theorem NewOpenAIChatCompletionsProvider_contract (LoadConfig : String → Outcome Config)
    (configFile : String) (cfg : Config) (hload : LoadConfig configFile = Outcome.ret cfg) :
    ((∃ value, NewOpenAIChatCompletionsProvider LoadConfig configFile = Outcome.panic value) ↔
      cfg.OpenAI.APIKey = "") ∧
    (cfg.OpenAI.APIKey = "" →
      NewOpenAIChatCompletionsProvider LoadConfig configFile =
        Outcome.panic (PanicValue.str "openai.api_key is required in config file")) ∧
    (cfg.OpenAI.APIKey ≠ "" →
      ∃ p, NewOpenAIChatCompletionsProvider LoadConfig configFile = Outcome.ret p ∧
        GoMap.get? p.Config "api_key" = some (Any.str cfg.OpenAI.APIKey) ∧
        (cfg.OpenAI.BaseURL ≠ "" →
          GoMap.get? p.Config "base_url" = some (Any.str cfg.OpenAI.BaseURL)) ∧
        (cfg.OpenAI.BaseURL = "" →
          GoMap.get? p.Config "base_url" = some (Any.str "https://api.openai.com/v1")) ∧
        (∀ k, k ∈ GoMap.keys p.Config ↔ k = "api_key" ∨ k = "base_url") ∧
        p.Name = "OpenAI Chat Completions") := by
  by_cases hkey : cfg.OpenAI.APIKey = ""
  · have hpanic : NewOpenAIChatCompletionsProvider LoadConfig configFile =
        Outcome.panic (PanicValue.str "openai.api_key is required in config file") := by
      simp [NewOpenAIChatCompletionsProvider, hload, hkey]
    exact ⟨⟨fun _ => hkey, fun _ => ⟨_, hpanic⟩⟩, fun _ => hpanic, fun h => absurd hkey h⟩
  · refine ⟨⟨?_, fun h => absurd h hkey⟩, fun h => absurd h hkey, fun _ => ?_⟩
    · rintro ⟨value, hv⟩
      simp [NewOpenAIChatCompletionsProvider, hload, hkey] at hv
    · cases hnew : NewOpenAIChatCompletionsProvider LoadConfig configFile with
      | panic value => simp [NewOpenAIChatCompletionsProvider, hload, hkey] at hnew
      | ret p =>
        simp only [NewOpenAIChatCompletionsProvider, hload, hkey, if_false,
          Outcome.ret.injEq] at hnew
        subst hnew
        refine ⟨_, rfl, ?_, ?_, ?_, ?_, rfl⟩
        · simp [OpenAIChatCompletionsProvider.Config, GoMap.get?]
        · intro hurl
          simp [OpenAIChatCompletionsProvider.Config, GoMap.get?, hurl]
        · intro hurl
          simp [OpenAIChatCompletionsProvider.Config, GoMap.get?, hurl]
        · intro k
          simp [OpenAIChatCompletionsProvider.Config, GoMap.keys]

/-- Witness of C15: a configuration with a key and no base URL. -/
theorem NewOpenAIChatCompletionsProvider_contract_witness :
    fixtureConfigNoBaseURL "config.yaml" =
      Outcome.ret { OpenAI := { APIKey := "test-key", BaseURL := "" } } ∧
    ∃ p, NewOpenAIChatCompletionsProvider fixtureConfigNoBaseURL "config.yaml" = Outcome.ret p ∧
      GoMap.get? p.Config "api_key" = some (Any.str "test-key") ∧
      (("" : String) ≠ "" → GoMap.get? p.Config "base_url" = some (Any.str "")) ∧
      (("" : String) = "" →
        GoMap.get? p.Config "base_url" = some (Any.str "https://api.openai.com/v1")) ∧
      (∀ k, k ∈ GoMap.keys p.Config ↔ k = "api_key" ∨ k = "base_url") ∧
      p.Name = "OpenAI Chat Completions" :=
  ⟨rfl,
    (NewOpenAIChatCompletionsProvider_contract fixtureConfigNoBaseURL "config.yaml"
      { OpenAI := { APIKey := "test-key", BaseURL := "" } } rfl).2.2 (by decide)⟩

/-! ## Token usage -/

/-- Counterexample to C18: a response with status 200, no error message, one
choice and the usage counts (-1, 2, -5) is accepted, and the result's prompt
and total token counts are negative. -/
theorem ParseChatCompletionsResponse_negative_usage :
    (ParseChatCompletionsResponse fixtureNegativeUsage 200).2 = none ∧
    (ParseChatCompletionsResponse fixtureNegativeUsage 200).1.Usage.PromptTokens = -1 ∧
    (ParseChatCompletionsResponse fixtureNegativeUsage 200).1.Usage.TotalTokens = -5 ∧
    ¬ (0 ≤ (ParseChatCompletionsResponse fixtureNegativeUsage 200).1.Usage.PromptTokens) := by
  decide

/-- C18, amended: `TokenUsage` is three integers copied from the response: for
every response that `ParseChatCompletionsResponse` accepts, each count of the
result's `Usage()` is at least zero exactly when the corresponding usage count
of the response is; in particular all three are at least zero when the
response's counts are. -/
theorem ParseChatCompletionsResponse_usage_sign (response : ChatCompletionsResponse)
    (statusCode : Int) (haccept : (ParseChatCompletionsResponse response statusCode).2 = none) :
    (0 ≤ (ParseChatCompletionsResponse response statusCode).1.Usage.PromptTokens ↔
      0 ≤ response.Usage.PromptTokens) ∧
    (0 ≤ (ParseChatCompletionsResponse response statusCode).1.Usage.CompletionTokens ↔
      0 ≤ response.Usage.CompletionTokens) ∧
    (0 ≤ (ParseChatCompletionsResponse response statusCode).1.Usage.TotalTokens ↔
      0 ≤ response.Usage.TotalTokens) ∧
    (0 ≤ response.Usage.PromptTokens → 0 ≤ response.Usage.CompletionTokens →
      0 ≤ response.Usage.TotalTokens →
      0 ≤ (ParseChatCompletionsResponse response statusCode).1.Usage.PromptTokens ∧
      0 ≤ (ParseChatCompletionsResponse response statusCode).1.Usage.CompletionTokens ∧
      0 ≤ (ParseChatCompletionsResponse response statusCode).1.Usage.TotalTokens) := by
  obtain ⟨choices, usage, err⟩ := response
  by_cases hs : statusCode = 200
  · by_cases hm : err.Message = ""
    · cases choices with
      | nil => simp [ParseChatCompletionsResponse, StatusOK, hs, hm] at haccept
      | cons first later =>
        simp only [ParseChatCompletionsResponse, StatusOK, hs, hm, NewGenerateTextResult,
          NewTokenUsage, GenerateTextResult.Usage, TokenUsage.PromptTokens,
          TokenUsage.CompletionTokens, TokenUsage.TotalTokens, ne_eq, not_true_eq_false,
          if_false]
        simp only [iff_self, true_and]
        exact fun h1 h2 h3 => ⟨h1, h2, h3⟩
    · simp [ParseChatCompletionsResponse, StatusOK, hs, hm] at haccept
  · by_cases hm : err.Message = ""
    · simp [ParseChatCompletionsResponse, StatusOK, hs, hm] at haccept
    · simp [ParseChatCompletionsResponse, StatusOK, hs, hm] at haccept

/-- Witness of C18 as amended: the response of the test "successful parsing". -/
theorem ParseChatCompletionsResponse_usage_sign_witness :
    (ParseChatCompletionsResponse fixtureSuccess 200).2 = none ∧
    (0 ≤ (ParseChatCompletionsResponse fixtureSuccess 200).1.Usage.PromptTokens ↔
      0 ≤ fixtureSuccess.Usage.PromptTokens) :=
  ⟨by decide, (ParseChatCompletionsResponse_usage_sign fixtureSuccess 200 (by decide)).1⟩

/-! ## Reserved names among the parameters -/

/-- C19: when the parameter map has the key "model" (respectively "messages"),
the body that `BuildChatCompletionsRequestBody` returns maps that key to the
parameter's value, and so not to `req.Model` (respectively the built message
list) unless the parameter's value is that very value; the keys of the body
are still exactly "model", "messages" and the parameter names, each once. -/
theorem BuildChatCompletionsRequestBody_collision (req : ChatCompletionsRequest)
    (hwf : GoMap.WF req.RequestParams) :
    (∀ v, ("model", v) ∈ req.RequestParams →
      GoMap.get? (BuildChatCompletionsRequestBody req) "model" = some v ∧
      (v ≠ Any.str req.Model →
        GoMap.get? (BuildChatCompletionsRequestBody req) "model" ≠ some (Any.str req.Model))) ∧
    (∀ v, ("messages", v) ∈ req.RequestParams →
      GoMap.get? (BuildChatCompletionsRequestBody req) "messages" = some v ∧
      (v ≠ Any.stringMaps
          (req.Messages.map (fun msg => [("role", msg.Role), ("content", msg.Content)])) →
        GoMap.get? (BuildChatCompletionsRequestBody req) "messages" ≠
          some (Any.stringMaps
            (req.Messages.map (fun msg => [("role", msg.Role), ("content", msg.Content)]))))) ∧
    GoMap.WF (BuildChatCompletionsRequestBody req) ∧
    (∀ k, k ∈ GoMap.keys (BuildChatCompletionsRequestBody req) ↔
      k = "model" ∨ k = "messages" ∨ k ∈ GoMap.keys req.RequestParams) := by
  refine ⟨?_, ?_, BuildChatCompletionsRequestBody_wf req,
    BuildChatCompletionsRequestBody_mem_keys req⟩
  · intro v hv
    have hget := BuildChatCompletionsRequestBody_param req "model" v hwf hv
    refine ⟨hget, fun hne heq => ?_⟩
    rw [hget] at heq
    exact hne (Option.some.inj heq)
  · intro v hv
    have hget := BuildChatCompletionsRequestBody_param req "messages" v hwf hv
    refine ⟨hget, fun hne heq => ?_⟩
    rw [hget] at heq
    exact hne (Option.some.inj heq)

/-- Witness of C19: model "gpt-4.1" with the parameters model = "gpt-5",
messages = null and top_p = 0.9. -/
theorem BuildChatCompletionsRequestBody_collision_witness :
    GoMap.WF fixtureCollision.RequestParams ∧
    GoMap.get? (BuildChatCompletionsRequestBody fixtureCollision) "model" = some (Any.str "gpt-5") ∧
    GoMap.get? (BuildChatCompletionsRequestBody fixtureCollision) "messages" = some Any.null ∧
    GoMap.WF (BuildChatCompletionsRequestBody fixtureCollision) :=
  ⟨by decide,
    ((BuildChatCompletionsRequestBody_collision fixtureCollision (by decide)).1 (Any.str "gpt-5")
      (by decide)).1,
    ((BuildChatCompletionsRequestBody_collision fixtureCollision (by decide)).2.1 Any.null
      (by decide)).1,
    (BuildChatCompletionsRequestBody_collision fixtureCollision (by decide)).2.2.1⟩

/-! ## Model lookup -/

theorem GetModel.search_eq (p : OpenAIChatCompletionsProvider) (modelName : String)
    (models : List Model) :
    OpenAIChatCompletionsProvider.GetModel.search p modelName models =
      match models.find? (fun m => decide (m.Name = modelName)) with
      | some m => (some m, none)
      | none => (none, some ("model " ++ modelName ++ " not found in provider " ++ p.Name)) := by
  induction models with
  | nil => simp [OpenAIChatCompletionsProvider.GetModel.search]
  | cons m rest ih =>
    by_cases h : m.Name = modelName
    · simp [OpenAIChatCompletionsProvider.GetModel.search, h]
    · simp [OpenAIChatCompletionsProvider.GetModel.search, h, ih]

/-- C20: for a provider built by `NewOpenAIChatCompletionsProvider` and every
model name, `GetModel` succeeds exactly when `ValidateModel` on
`AvailableModels()` and `Name()` does; on success the model returned is the
first catalog entry with that name and its own `AvailableRequestParameters()`
is the provider's `AvailableRequestParameters(name)`; on failure no model is
returned and the error text is
"model <name> not found in provider <provider name>". -/
theorem GetModel_contract (LoadConfig : String → Outcome Config)
    (configFile : String) (p : OpenAIChatCompletionsProvider) (modelName : String)
    (hp : NewOpenAIChatCompletionsProvider LoadConfig configFile = Outcome.ret p) :
    ((p.GetModel modelName).2 = none ↔
      ValidateModel p.AvailableModels modelName p.Name = none) ∧
    ((p.GetModel modelName).2 = none →
      ∃ m, p.GetModel modelName = (some m, none) ∧
        p.AvailableModels.find? (fun x => decide (x.Name = modelName)) = some m ∧
        m.Name = modelName ∧
        m.AvailableRequestParameters = p.AvailableRequestParameters modelName) ∧
    ((p.GetModel modelName).2 ≠ none →
      p.GetModel modelName =
        (none, some ("model " ++ modelName ++ " not found in provider " ++ p.Name))) ∧
    p.Name = "OpenAI Chat Completions" := by
  obtain ⟨hmodels, htable, hname⟩ := NewOpenAIChatCompletionsProvider_ret LoadConfig configFile p hp
  have hget : p.GetModel modelName =
      match p.availableModels.find? (fun m => decide (m.Name = modelName)) with
      | some m => (some m, none)
      | none => (none, some ("model " ++ modelName ++ " not found in provider " ++ p.Name)) :=
    GetModel.search_eq p modelName p.availableModels
  have hval := ValidateModel_eq p.availableModels modelName p.Name
  simp only [OpenAIChatCompletionsProvider.AvailableModels,
    OpenAIChatCompletionsProvider.AvailableRequestParameters, htable]
  rw [hget, hval, hmodels]
  refine ⟨?_, ?_, ?_, hname⟩
  · by_cases h1 : "gpt-4.1" = modelName
    · simp [Model.Name, h1]
    · by_cases h2 : "gpt-5" = modelName
      · simp [Model.Name, h1, h2]
      · simp [Model.Name, h1, h2]
  · by_cases h1 : "gpt-4.1" = modelName
    · subst h1
      simp [Model.Name, Model.AvailableRequestParameters, GoMap.get?]
    · by_cases h2 : "gpt-5" = modelName
      · subst h2
        simp [Model.Name, Model.AvailableRequestParameters, GoMap.get?]
      · simp [Model.Name, h1, h2]
  · by_cases h1 : "gpt-4.1" = modelName
    · simp [Model.Name, h1]
    · by_cases h2 : "gpt-5" = modelName
      · simp [Model.Name, h1, h2]
      · simp [Model.Name, h1, h2]

/-- Witness of C20: the provider of the tests and the model name "gpt-5". -/
theorem GetModel_contract_witness :
    NewOpenAIChatCompletionsProvider fixtureLoadConfig "test_config.yaml" = Outcome.ret fixtureProvider ∧
    ((fixtureProvider.GetModel "gpt-5").2 = none ↔
      ValidateModel fixtureProvider.AvailableModels "gpt-5" fixtureProvider.Name = none) ∧
    fixtureProvider.GetModel "gpt-5" = (some { name := "gpt-5", parameters := [] }, none) ∧
    fixtureProvider.GetModel "gpt-4" =
      (none, some "model gpt-4 not found in provider OpenAI Chat Completions") :=
  ⟨by decide,
    (GetModel_contract fixtureLoadConfig "test_config.yaml" fixtureProvider "gpt-5" (by decide)).1,
    by decide, by decide⟩

/-! ## The runtime helper -/

/-- C17: `runtime.GenerateText` makes one call of the provider's `GenerateText`,
with the same prompt, model name and parameters: the state it leaves is the
state that this one call leaves (for the mock that lists its calls, one more
entry, with these arguments). When the provider returns a nil error the
helper returns the provider's result; when the provider returns an error the
helper panics with that error as the panic value (for the mock,
"mock provider error"); a panic of the provider passes through unchanged. -/
theorem runtime_GenerateText_contract {σ : Type} (p : Provider σ) (prompt modelName : String)
    (requestParameters : GoMap Any) (s : σ) :
    (runtime.GenerateText p prompt modelName requestParameters s).2 =
      (p.GenerateText prompt modelName requestParameters s).2 ∧
    (∀ result, (p.GenerateText prompt modelName requestParameters s).1 = Outcome.ret (result, none) →
      (runtime.GenerateText p prompt modelName requestParameters s).1 = Outcome.ret result) ∧
    (∀ result err,
      (p.GenerateText prompt modelName requestParameters s).1 = Outcome.ret (result, some err) →
      (runtime.GenerateText p prompt modelName requestParameters s).1 =
        Outcome.panic (PanicValue.err err)) ∧
    (∀ value, (p.GenerateText prompt modelName requestParameters s).1 = Outcome.panic value →
      (runtime.GenerateText p prompt modelName requestParameters s).1 = Outcome.panic value) ∧
    (∀ (m : mockProvider) (calls : List (String × String × GoMap Any)),
      (runtime.GenerateText m.asProvider prompt modelName requestParameters calls).2 =
        calls ++ [(prompt, modelName, requestParameters)]) ∧
    (runtime.GenerateText (mockProvider.asProvider { shouldError := true }) prompt modelName
        requestParameters []).1 = Outcome.panic (PanicValue.err "mock provider error") ∧
    (runtime.GenerateText (mockProvider.asProvider { shouldError := false }) prompt modelName
        requestParameters []).1 =
      Outcome.ret (NewGenerateTextResult "Mock response" (NewTokenUsage 10 20 30)) := by
  refine ⟨?_, ?_, ?_, ?_, ?_, ?_, ?_⟩
  · unfold runtime.GenerateText
    rcases h : p.GenerateText prompt modelName requestParameters s with ⟨out, s1⟩
    rcases out with value | ⟨result, _ | err⟩ <;> rfl
  · intro result h
    unfold runtime.GenerateText
    rcases h1 : p.GenerateText prompt modelName requestParameters s with ⟨out, s1⟩
    rw [h1] at h
    simp only at h
    subst h
    rfl
  · intro result err h
    unfold runtime.GenerateText
    rcases h1 : p.GenerateText prompt modelName requestParameters s with ⟨out, s1⟩
    rw [h1] at h
    simp only at h
    subst h
    rfl
  · intro value h
    unfold runtime.GenerateText
    rcases h1 : p.GenerateText prompt modelName requestParameters s with ⟨out, s1⟩
    rw [h1] at h
    simp only at h
    subst h
    rfl
  · intro m calls
    cases hm : m.shouldError <;>
      simp [runtime.GenerateText, mockProvider.asProvider, mockProvider.GenerateText, hm]
  · simp [runtime.GenerateText, mockProvider.asProvider, mockProvider.GenerateText]
  · simp [runtime.GenerateText, mockProvider.asProvider, mockProvider.GenerateText]

/-! ## Request headers -/

theorem GoMap.get?_foldl_set_of_mem_agree {V : Type} (l init : GoMap V) (k : String) (v : V)
    (hkv : (k, v) ∈ l) (hagree : ∀ w, (k, w) ∈ l → w = v) :
    GoMap.get? (l.foldl (fun body kv => GoMap.set body kv.1 kv.2) init) k = some v := by
  induction l generalizing init with
  | nil => simp at hkv
  | cons e rest ih =>
    obtain ⟨k1, v1⟩ := e
    rw [List.foldl_cons]
    by_cases hrest : k ∈ GoMap.keys rest
    · obtain ⟨⟨k2, w⟩, hmem, hk2⟩ := List.mem_map.mp hrest
      simp only at hk2
      subst hk2
      have hw : w = v := hagree w (List.mem_cons_of_mem _ hmem)
      subst hw
      exact ih _ hmem (fun w1 hw1 => hagree w1 (List.mem_cons_of_mem _ hw1))
    · rw [GoMap.get?_foldl_set_of_not_mem _ _ _ hrest]
      rcases List.mem_cons.mp hkv with heq | hin
      · cases heq
        exact GoMap.get?_set_self _ _ _
      · exact absurd (List.mem_map_of_mem Prod.fst hin) hrest

theorem CreateJSONRequest_header {β : Type} (jsonMarshal : β → List Nat × GoError)
    (newRequest : String → String → String × GoError) (method url : String) (body : Option β)
    (headers : GoMap String) (req : Request)
    (hok : CreateJSONRequest jsonMarshal newRequest method url body headers = (some req, none)) :
    req.Header =
      (headers.map (fun kv => (CanonicalMIMEHeaderKey kv.1, [kv.2]))).foldl
        (fun h kv => GoMap.set h kv.1 kv.2)
        (Header.Set (if body.isSome then Header.Set [] "Content-Type" "application/json" else [])
          "Accept" "application/json") := by
  unfold CreateJSONRequest at hok
  simp only at hok
  split at hok
  · simp at hok
  · split at hok
    · simp at hok
    · simp only [Prod.mk.injEq, Option.some.injEq, and_true] at hok
      rw [← hok, List.foldl_map]
      rfl

theorem mem_keys_canonical (headers : GoMap String) (key : String)
    (hmem : key ∈ GoMap.keys (headers.map (fun kv => (CanonicalMIMEHeaderKey kv.1, [kv.2])))) :
    ∃ k ∈ GoMap.keys headers, CanonicalMIMEHeaderKey k = key := by
  simp only [GoMap.keys, List.map_map, List.mem_map, Function.comp] at hmem
  obtain ⟨kv, hkv, hkey⟩ := hmem
  exact ⟨kv.1, List.mem_map_of_mem Prod.fst hkv, hkey⟩

theorem exists_last_naming (headers : GoMap String) (key : String)
    (hnamed : ∃ k ∈ GoMap.keys headers, CanonicalMIMEHeaderKey k = key) :
    ∃ (visitedBefore visitedAfter : GoMap String) (k v : String),
      headers = visitedBefore ++ (k, v) :: visitedAfter ∧ CanonicalMIMEHeaderKey k = key ∧
      ∀ k2 ∈ GoMap.keys visitedAfter, CanonicalMIMEHeaderKey k2 ≠ key := by
  induction headers with
  | nil =>
    obtain ⟨k, hk, _⟩ := hnamed
    simp [GoMap.keys] at hk
  | cons e rest ih =>
    obtain ⟨k1, v1⟩ := e
    by_cases hrest : ∃ k ∈ GoMap.keys rest, CanonicalMIMEHeaderKey k = key
    · obtain ⟨visitedBefore, visitedAfter, k, v, hsplit, hk, hlast⟩ := ih hrest
      exact ⟨(k1, v1) :: visitedBefore, visitedAfter, k, v, by rw [hsplit]; rfl, hk, hlast⟩
    · obtain ⟨k, hk, hkey⟩ := hnamed
      have hk1 : k = k1 ∨ k ∈ GoMap.keys rest := by
        simpa [GoMap.keys] using hk
      rcases hk1 with hk1 | hk1
      · subst hk1
        exact ⟨[], rest, k, v1, rfl, hkey, fun k2 hk2 hc => hrest ⟨k2, hk2, hc⟩⟩
      · exact absurd ⟨k, hk1, hkey⟩ hrest

theorem CreateJSONRequest_last_visited {β : Type} (jsonMarshal : β → List Nat × GoError)
    (newRequest : String → String → String × GoError) (method url : String) (body : Option β)
    (headers : GoMap String) (req : Request)
    (hok : CreateJSONRequest jsonMarshal newRequest method url body headers = (some req, none))
    (visitedBefore visitedAfter : GoMap String) (k v name : String)
    (hsplit : headers = visitedBefore ++ (k, v) :: visitedAfter)
    (hlast : ∀ k2 ∈ GoMap.keys visitedAfter, CanonicalMIMEHeaderKey k2 ≠ CanonicalMIMEHeaderKey k)
    (hname : CanonicalMIMEHeaderKey name = CanonicalMIMEHeaderKey k) :
    GoMap.get? req.Header (CanonicalMIMEHeaderKey k) = some [v] ∧
    Header.Get req.Header name = v := by
  rw [CreateJSONRequest_header jsonMarshal newRequest method url body headers req hok]
  subst hsplit
  have hnot : CanonicalMIMEHeaderKey k ∉
      GoMap.keys (visitedAfter.map (fun kv => (CanonicalMIMEHeaderKey kv.1, [kv.2]))) := by
    intro hmem
    obtain ⟨k2, hk2, hkey⟩ := mem_keys_canonical visitedAfter _ hmem
    exact hlast k2 hk2 hkey
  have hget : GoMap.get?
      (((visitedBefore ++ (k, v) :: visitedAfter).map
        (fun kv => (CanonicalMIMEHeaderKey kv.1, [kv.2]))).foldl
        (fun h kv => GoMap.set h kv.1 kv.2)
        (Header.Set (if body.isSome then Header.Set [] "Content-Type" "application/json" else [])
          "Accept" "application/json")) (CanonicalMIMEHeaderKey k) = some [v] := by
    rw [List.map_append, List.map_cons, List.foldl_append, List.foldl_cons,
      GoMap.get?_foldl_set_of_not_mem _ _ _ hnot]
    exact GoMap.get?_set_self _ _ _
  refine ⟨hget, ?_⟩
  unfold Header.Get
  rw [hname, hget]

/-- Counterexample to C16: with the caller headers "accept": "text/plain" and
"Accept": "text/html" (two keys of the map), the call succeeds and the request
has one header Accept; read under the caller's key "accept" it is
"text/html", not the caller's "text/plain", and visiting the map in the other
order loses "text/html" in the same way. -/
theorem CreateJSONRequest_caller_header_lost :
    GoMap.WF fixtureTwoAccepts ∧ ("accept", "text/plain") ∈ fixtureTwoAccepts ∧
    (CreateJSONRequest fixtureMarshal fixtureNewRequest "POST" "http://example.com"
      (some fixtureBody) fixtureTwoAccepts).2 = none ∧
    (CreateJSONRequest fixtureMarshal fixtureNewRequest "POST" "http://example.com"
      (some fixtureBody) fixtureTwoAccepts).1.map (fun req => req.Header) =
        some [("Content-Type", ["application/json"]), ("Accept", ["text/html"])] ∧
    (CreateJSONRequest fixtureMarshal fixtureNewRequest "POST" "http://example.com"
      (some fixtureBody) fixtureTwoAccepts).1.map (fun req => Header.Get req.Header "accept") =
        some "text/html" ∧
    (CreateJSONRequest fixtureMarshal fixtureNewRequest "POST" "http://example.com"
      (some fixtureBody) fixtureTwoAccepts).1.map (fun req => Header.Get req.Header "accept") ≠
        some "text/plain" ∧
    ("Accept", "text/html") ∈ fixtureTwoAcceptsReversed ∧
    (CreateJSONRequest fixtureMarshal fixtureNewRequest "POST" "http://example.com"
      (some fixtureBody) fixtureTwoAcceptsReversed).1.map
        (fun req => Header.Get req.Header "Accept") = some "text/plain" := by
  decide

/-- C16, amended: when `CreateJSONRequest` succeeds, with header names read as
`net/http` reads them (up to `CanonicalMIMEHeaderKey`): Accept is
"application/json" unless a caller key names Accept; Content-Type is
"application/json" when the body is not nil and absent when it is nil, unless
a caller key names Content-Type; a caller-supplied header is present with the
caller's value provided every caller key that names the same header carries
the same value; and in general a header that caller keys name holds exactly
the value of the caller key visited last among them, under whatever key that
names it the header is read; so whenever a caller key names a header, also
Accept or Content-Type, the value read is a caller's and not the default. The
request's header map has one entry for each header: its keys are distinct and
are Accept, Content-Type when the body is not nil, and the canonical forms of
the caller's keys. -/
theorem CreateJSONRequest_headers {β : Type} (jsonMarshal : β → List Nat × GoError)
    (newRequest : String → String → String × GoError) (method url : String) (body : Option β)
    (headers : GoMap String) (req : Request)
    (hok : CreateJSONRequest jsonMarshal newRequest method url body headers = (some req, none)) :
    ((∀ k ∈ GoMap.keys headers, CanonicalMIMEHeaderKey k ≠ "Accept") →
      Header.Get req.Header "Accept" = "application/json") ∧
    ((∀ k ∈ GoMap.keys headers, CanonicalMIMEHeaderKey k ≠ "Content-Type") →
      (body.isSome = true → Header.Get req.Header "Content-Type" = "application/json") ∧
      (body = none →
        GoMap.get? req.Header "Content-Type" = none ∧ Header.Get req.Header "Content-Type" = "")) ∧
    (∀ k v, (k, v) ∈ headers →
      (∀ k2 v2, (k2, v2) ∈ headers → CanonicalMIMEHeaderKey k2 = CanonicalMIMEHeaderKey k →
        v2 = v) →
      Header.Get req.Header k = v) ∧
    (∀ (visitedBefore visitedAfter : GoMap String) (k v name : String),
      headers = visitedBefore ++ (k, v) :: visitedAfter →
      (∀ k2 ∈ GoMap.keys visitedAfter, CanonicalMIMEHeaderKey k2 ≠ CanonicalMIMEHeaderKey k) →
      CanonicalMIMEHeaderKey name = CanonicalMIMEHeaderKey k →
      GoMap.get? req.Header (CanonicalMIMEHeaderKey k) = some [v] ∧
      Header.Get req.Header name = v) ∧
    (∀ name, (∃ k ∈ GoMap.keys headers, CanonicalMIMEHeaderKey k = CanonicalMIMEHeaderKey name) →
      ∃ k v, (k, v) ∈ headers ∧ CanonicalMIMEHeaderKey k = CanonicalMIMEHeaderKey name ∧
        GoMap.get? req.Header (CanonicalMIMEHeaderKey name) = some [v] ∧
        Header.Get req.Header name = v) ∧
    GoMap.WF req.Header ∧
    (∀ key, key ∈ GoMap.keys req.Header ↔
      key = "Accept" ∨ (key = "Content-Type" ∧ body.isSome = true) ∨
      ∃ k ∈ GoMap.keys headers, CanonicalMIMEHeaderKey k = key) := by
  have hA : CanonicalMIMEHeaderKey "Accept" = "Accept" := by decide
  have hC : CanonicalMIMEHeaderKey "Content-Type" = "Content-Type" := by decide
  have hAC : ("Content-Type" : String) ≠ "Accept" := by decide
  have hlastwins := CreateJSONRequest_last_visited jsonMarshal newRequest method url body headers
    req hok
  have hnamed : ∀ name,
      (∃ k ∈ GoMap.keys headers, CanonicalMIMEHeaderKey k = CanonicalMIMEHeaderKey name) →
      ∃ k v, (k, v) ∈ headers ∧ CanonicalMIMEHeaderKey k = CanonicalMIMEHeaderKey name ∧
        GoMap.get? req.Header (CanonicalMIMEHeaderKey name) = some [v] ∧
        Header.Get req.Header name = v := by
    intro name hex
    obtain ⟨visitedBefore, visitedAfter, k, v, hsplit, hk, hlast⟩ :=
      exists_last_naming headers (CanonicalMIMEHeaderKey name) hex
    have hboth := hlastwins visitedBefore visitedAfter k v name hsplit
      (fun k2 hk2 => by rw [hk]; exact hlast k2 hk2) hk.symm
    refine ⟨k, v, by rw [hsplit]; simp, hk, ?_, hboth.2⟩
    rw [← hk]
    exact hboth.1
  refine ⟨?_, ?_, ?_, hlastwins, hnamed, ?_, ?_⟩
  all_goals rw [CreateJSONRequest_header jsonMarshal newRequest method url body headers req hok]
  · intro hno
    have hnot : "Accept" ∉
        GoMap.keys (headers.map (fun kv => (CanonicalMIMEHeaderKey kv.1, [kv.2]))) := by
      intro hmem
      obtain ⟨k, hk, hkey⟩ := mem_keys_canonical headers "Accept" hmem
      exact hno k hk hkey
    unfold Header.Get
    rw [hA, GoMap.get?_foldl_set_of_not_mem _ _ _ hnot]
    unfold Header.Set
    rw [hA, GoMap.get?_set_self]
  · intro hno
    have hnot : "Content-Type" ∉
        GoMap.keys (headers.map (fun kv => (CanonicalMIMEHeaderKey kv.1, [kv.2]))) := by
      intro hmem
      obtain ⟨k, hk, hkey⟩ := mem_keys_canonical headers "Content-Type" hmem
      exact hno k hk hkey
    have hget : ∀ h1 : Header,
        GoMap.get? ((headers.map (fun kv => (CanonicalMIMEHeaderKey kv.1, [kv.2]))).foldl
          (fun h kv => GoMap.set h kv.1 kv.2) (Header.Set h1 "Accept" "application/json"))
          "Content-Type" = GoMap.get? h1 "Content-Type" := by
      intro h1
      rw [GoMap.get?_foldl_set_of_not_mem _ _ _ hnot]
      unfold Header.Set
      rw [hA]
      exact GoMap.get?_set_other _ _ _ _ hAC
    refine ⟨?_, ?_⟩
    · intro hsome
      unfold Header.Get
      rw [hC, hget, hsome]
      simp [Header.Set, hC, GoMap.set, GoMap.get?]
    · intro hnone
      subst hnone
      unfold Header.Get
      rw [hC, hget]
      simp [GoMap.get?]
  · intro k v hkv hagree
    have hmem : (CanonicalMIMEHeaderKey k, [v]) ∈
        headers.map (fun kv => (CanonicalMIMEHeaderKey kv.1, [kv.2])) :=
      List.mem_map.mpr ⟨(k, v), hkv, rfl⟩
    have hsame : ∀ w, (CanonicalMIMEHeaderKey k, w) ∈
        headers.map (fun kv => (CanonicalMIMEHeaderKey kv.1, [kv.2])) → w = [v] := by
      intro w hw
      obtain ⟨⟨k2, v2⟩, hin, heq⟩ := List.mem_map.mp hw
      simp only [Prod.mk.injEq] at heq
      rw [← heq.2, hagree k2 v2 hin heq.1]
    unfold Header.Get
    rw [GoMap.get?_foldl_set_of_mem_agree _ _ _ _ hmem hsame]
  · apply GoMap.wf_foldl_set
    unfold Header.Set
    apply GoMap.wf_set
    cases body <;> simp [GoMap.WF, GoMap.keys, GoMap.set]
  · intro key
    rw [GoMap.mem_keys_foldl_set]
    have hcanon : key ∈ GoMap.keys (headers.map (fun kv => (CanonicalMIMEHeaderKey kv.1, [kv.2]))) ↔
        ∃ k ∈ GoMap.keys headers, CanonicalMIMEHeaderKey k = key := by
      constructor
      · exact mem_keys_canonical headers key
      · rintro ⟨k, hk, hkey⟩
        obtain ⟨kv, hkv, hfst⟩ := List.mem_map.mp hk
        exact List.mem_map.mpr
          ⟨(CanonicalMIMEHeaderKey kv.1, [kv.2]), List.mem_map.mpr ⟨kv, hkv, rfl⟩, by
            simp only
            rw [hfst]
            exact hkey⟩
    rw [hcanon]
    unfold Header.Set
    rw [hA, GoMap.mem_keys_set]
    cases body with
    | none => simp [GoMap.keys]
    | some b => simp [GoMap.keys, GoMap.set, hC, or_assoc]

/-- Witness of C16 as amended: the call of the test "successful creation", and
the call with the caller keys "accept" and "Accept", where the value of the
key visited last is the one kept. -/
theorem CreateJSONRequest_headers_witness :
    CreateJSONRequest fixtureMarshal fixtureNewRequest "POST" "http://example.com"
        (some fixtureBody) fixtureHeaders =
      (some { Method := "POST", URL := "http://example.com", Body := [123, 125],
              Header := [("Content-Type", ["application/json"]), ("Accept", ["application/json"]),
                ("Authorization", ["Bearer token"])] }, none) ∧
    CreateJSONRequest fixtureMarshal fixtureNewRequest "POST" "http://example.com"
        (some fixtureBody) fixtureTwoAccepts =
      (some { Method := "POST", URL := "http://example.com", Body := [123, 125],
              Header := [("Content-Type", ["application/json"]), ("Accept", ["text/html"])] },
        none) ∧
    (GoMap.get? [("Content-Type", ["application/json"]), ("Accept", ["text/html"])]
        (CanonicalMIMEHeaderKey "Accept") = some ["text/html"] ∧
      Header.Get [("Content-Type", ["application/json"]), ("Accept", ["text/html"])] "accept" =
        "text/html") ∧
    Header.Get [("Content-Type", ["application/json"]), ("Accept", ["application/json"]),
      ("Authorization", ["Bearer token"])] "Accept" = "application/json" ∧
    Header.Get [("Content-Type", ["application/json"]), ("Accept", ["application/json"]),
      ("Authorization", ["Bearer token"])] "Authorization" = "Bearer token" :=
  ⟨by decide, by decide,
    (CreateJSONRequest_headers fixtureMarshal fixtureNewRequest "POST" "http://example.com"
      (some fixtureBody) fixtureTwoAccepts
      { Method := "POST", URL := "http://example.com", Body := [123, 125],
        Header := [("Content-Type", ["application/json"]), ("Accept", ["text/html"])] }
      (by decide)).2.2.2.1 [("accept", "text/plain")] [] "Accept" "text/html" "accept" rfl
      (by
        intro k2 h2
        simp [GoMap.keys] at h2)
      (by decide),
    (CreateJSONRequest_headers fixtureMarshal fixtureNewRequest "POST" "http://example.com"
      (some fixtureBody) fixtureHeaders
      { Method := "POST", URL := "http://example.com", Body := [123, 125],
        Header := [("Content-Type", ["application/json"]), ("Accept", ["application/json"]),
          ("Authorization", ["Bearer token"])] } (by decide)).1 (by decide),
    (CreateJSONRequest_headers fixtureMarshal fixtureNewRequest "POST" "http://example.com"
      (some fixtureBody) fixtureHeaders
      { Method := "POST", URL := "http://example.com", Body := [123, 125],
        Header := [("Content-Type", ["application/json"]), ("Accept", ["application/json"]),
          ("Authorization", ["Bearer token"])] } (by decide)).2.2.1 "Authorization" "Bearer token"
      (by decide)
      (by
        intro k2 v2 h2 _
        simp only [fixtureHeaders, List.mem_singleton, Prod.mk.injEq] at h2
        exact h2.2)⟩

end AgenticAI
